import Mathlib

/-!
# nodejs-telegram-bot: a shallow embedding of the handlers, services and utilities

The development models the JavaScript sources file by file:

* `src/utils/logger.js`        : `Logger`
* `src/utils/errorHandler.js`  : `ErrorHandler`
* `src/services/apiService.js` : `ApiService`
* `src/handlers/responses.js`  : `ResponseHandler`
* `src/handlers/commands.js`   : `CommandsHandler`
* `src/index.js`               : `Bot.onText`, the registration of the text handler

Asynchronous functions become functions in the `Async` type: they take the
trace of effects performed so far and return either a value or a thrown error,
together with the extended trace. The effects recorded are the lines written by
the logger, the messages handed to the chat transport and the outbound HTTP
requests. The behaviour of the outside world (whether a send succeeds or what it
is rejected with, what an HTTP request answers) is a parameter of the model, and
so is the value of `this` in the one method that reads it.
-/

namespace TelegramBot

/-! ## JavaScript values -/

/-- A JavaScript value as it can come out of a parsed HTTP body. Numbers are the
finite ones (as rationals) and `nan`. Object keys are looked up left to right. -/
inductive JsValue where
  | undefined
  | null
  | bool (b : Bool)
  | number (q : Rat)
  | nan
  | string (s : String)
  | array (items : List JsValue)
  | object (fields : List (String × JsValue))

/-- An `Error` object: its `message` and, for errors raised by the HTTP client,
its `code` (such as `ENOTFOUND`). -/
structure JsError where
  message : String
  code : Option String
  deriving DecidableEq

/-- The expression `new Error(message)`. -/
def JsError.new (message : String) : JsError :=
  { message := message, code := none }

/-- The `TypeError` raised when the property `key` of `undefined` or `null` (the
`base`) is read. -/
def JsError.typeError (base key : String) : JsError :=
  { message := "Cannot read properties of " ++ base ++ " (reading \x27" ++ key ++ "\x27)",
    code := none }

/-- A thrown value, as a `catch` clause receives it or a promise rejects with it:
`undefined`, `null`, a string, or an `Error` object. Other primitives behave as
strings do in the code modelled here; other objects are not modelled. -/
inductive Thrown where
  | undefined
  | null
  | str (s : String)
  | error (e : JsError)
  deriving DecidableEq

instance : Coe JsError Thrown := ⟨Thrown.error⟩

/-- The thrown value is `undefined` or `null`. -/
def Thrown.nullish : Thrown → Bool
  | .undefined => true
  | .null => true
  | _ => false

/-- The method `Error.prototype.toString()` for an error whose name is `Error`. -/
def JsError.toString (e : JsError) : String :=
  if e.message = "" then "Error" else "Error: " ++ e.message

/-- Truthiness of a value, as tested by `!v`, `v || w` and `v && w`. -/
def JsValue.truthy : JsValue → Bool
  | .undefined => false
  | .null => false
  | .bool b => b
  | .number q => decide (q ≠ 0)
  | .nan => false
  | .string s => decide (s ≠ "")
  | .array _ => true
  | .object _ => true

/-- The value is absent: `undefined` or `null`. -/
def JsValue.absent : JsValue → Bool
  | .undefined => true
  | .null => true
  | _ => false

/-- Truthiness of a string: the empty string is falsy. -/
def strTruthy (s : String) : Bool := decide (s ≠ "")

/-- The expression `a || b` on strings. -/
def strOr (a b : String) : String := if strTruthy a then a else b

/-- Own-property read `v.key` / `v[key]`. Reading from `undefined` or `null`
throws; objects answer their entries; arrays answer their indices and `length`;
every other read is `undefined`. Properties inherited from prototypes, and the
`length` and indices of a string, are not modelled: the sources read them only
through the symbol typed by the user, and then only test the `usd` entry of what
they get, which those values do not have. -/
def JsValue.get (v : JsValue) (key : String) : Except JsError JsValue :=
  match v with
  | .undefined => .error (JsError.typeError "undefined" key)
  | .null => .error (JsError.typeError "null" key)
  | .object fields => .ok ((fields.lookup key).getD .undefined)
  | .array items =>
      if key = "length" then .ok (.number items.length)
      else match key.toNat? with
        | some i => if toString i = key then .ok (items.getD i .undefined) else .ok .undefined
        | none => .ok .undefined
  | _ => .ok .undefined

/-- Indexed read `v[i]` with a numeric literal index. A string answers its
character at that position (text in the Basic Multilingual Plane). -/
def JsValue.index (v : JsValue) (i : Nat) : Except JsError JsValue :=
  match v with
  | .undefined => .error (JsError.typeError "undefined" (toString i))
  | .null => .error (JsError.typeError "null" (toString i))
  | .array items => .ok (items.getD i .undefined)
  | .object fields => .ok ((fields.lookup (toString i)).getD .undefined)
  | .string s =>
      match s.toList.get? i with
      | some c => .ok (.string (String.singleton c))
      | none => .ok .undefined
  | _ => .ok .undefined

/-- The number `Object.keys(v).length` for a truthy value `v`. -/
def JsValue.keysLength : JsValue → Nat
  | .object fields => fields.length
  | .array items => items.length
  | .string s => s.length
  | _ => 0

/-- Library functions of the JavaScript runtime that the sources call and whose
tables are not part of the repository. -/
structure Builtins where
  toLowerCase : String → String
  toUpperCase : String → String
  encodeURIComponent : String → String
  toLocaleString : JsValue → String
  display : JsValue → String

/-! ## Effects -/

/-- An observable effect of a handler run. -/
inductive Event where
  | reply (text : String)
  | replyWithMarkdown (text : String)
  | httpGet (url : String)
  | console (level : String) (message : String) (args : List String)

/-- An asynchronous computation: from the trace so far to a result or a thrown
error, with the trace extended by the effects performed. -/
def Async (α : Type) : Type := List Event → Except Thrown α × List Event

/-- Run a computation from a given trace. -/
def Async.run {α : Type} (m : Async α) (tr : List Event) : Except Thrown α × List Event := m tr

/-- Sequencing (`await m; f`). -/
def Async.bind {α β : Type} (m : Async α) (f : α → Async β) : Async β := fun tr =>
  match m tr with
  | (.ok a, tr1) => f a tr1
  | (.error e, tr1) => (.error e, tr1)

/-- The statement `throw e`. -/
def Async.throw {α : Type} (e : Thrown) : Async α := fun tr => (.error e, tr)

/-- The statement `try { body } catch (error) { handler }`. -/
def Async.tryCatch {α : Type} (body : Async α) (handler : Thrown → Async α) : Async α := fun tr =>
  match body tr with
  | (.ok a, tr1) => (.ok a, tr1)
  | (.error e, tr1) => handler e tr1

instance : Monad Async where
  pure a := fun tr => (.ok a, tr)
  bind := Async.bind

instance : MonadExcept Thrown Async where
  throw := Async.throw
  tryCatch := Async.tryCatch

/-- The outcome of a synchronous step that may throw an `Error` object, as an
outcome that may throw any value. -/
def liftResult {α : Type} (x : Except JsError α) : Except Thrown α :=
  match x with
  | .ok a => .ok a
  | .error e => .error (Thrown.error e)

/-- Lift a synchronous computation that may throw an `Error` object. -/
def Async.ofExcept {α : Type} (x : Except JsError α) : Async α := fun tr => (liftResult x, tr)

/-! ## `src/utils/logger.js` -/

/-- The table `this.levels`. A name that is not one of its four keys reads as
`undefined`; names inherited from `Object.prototype` are not modelled. -/
def Logger.levels (level : String) : Option Nat :=
  if level = "error" then some 0
  else if level = "warn" then some 1
  else if level = "info" then some 2
  else if level = "debug" then some 3
  else none

/-- A logger: the numeric threshold computed by the constructor. -/
structure Logger where
  currentLevel : Nat

/-- The expression `a || b` where `a` is a table read: `undefined` and `0` are falsy. -/
def numOr (a : Option Nat) (b : Nat) : Nat :=
  match a with
  | some n => if n = 0 then b else n
  | none => b

/-- The constructor: `this.currentLevel = this.levels[level] || this.levels.info`. -/
def Logger.create (level : String) : Logger :=
  { currentLevel := numOr (Logger.levels level) ((Logger.levels "info").getD 2) }

/-- The guard of `log`: `this.levels[level] <= this.currentLevel`. -/
def Logger.emits (self : Logger) (level : String) : Bool :=
  match Logger.levels level with
  | some r => decide (r ≤ self.currentLevel)
  | none => false

/-- The method `log(level, message, ...args)`. The timestamp of the written line
is not recorded. -/
def Logger.log (self : Logger) (level message : String) (args : List String) : Async Unit :=
  fun tr =>
    if self.emits level then (.ok (), tr ++ [Event.console level message args])
    else (.ok (), tr)

/-- The method `error(message, ...args)`. -/
def Logger.error (self : Logger) (message : String) (args : List String) : Async Unit :=
  self.log "error" message args

/-- The method `warn(message, ...args)`. -/
def Logger.warn (self : Logger) (message : String) (args : List String) : Async Unit :=
  self.log "warn" message args

/-- The method `info(message, ...args)`. -/
def Logger.info (self : Logger) (message : String) (args : List String) : Async Unit :=
  self.log "info" message args

/-- The method `debug(message, ...args)`. -/
def Logger.debug (self : Logger) (message : String) (args : List String) : Async Unit :=
  self.log "debug" message args

/-- The rank of a level name as the specification orders them. -/
def rank (level : String) : Nat := (Logger.levels level).getD 0

/-! ## `src/utils/errorHandler.js` -/

/-- The static method `validateApiResponse(response)`. -/
def ErrorHandler.validateApiResponse (response : JsValue) : Except JsError JsValue :=
  if !response.truthy then .error (JsError.new "Invalid API response")
  else
    match response.get "data" with
    | .error e => .error e
    | .ok data =>
        if !data.truthy then .error (JsError.new "Invalid API response")
        else .ok data

/-! ## Strings -/

/-- Substring test on character lists: does `k` occur in `l` at some position. -/
def includesChars : List Char → List Char → Bool
  | [], k => k.isPrefixOf []
  | c :: cs, k => k.isPrefixOf (c :: cs) || includesChars cs k

/-- The method `text.includes(k)`. -/
def includes (text k : String) : Bool := includesChars text.toList k.toList

/-- The method `text.endsWith(k)`. -/
def endsWith (text k : String) : Bool := k.toList.isSuffixOf text.toList

/-- Cut a character list at every occurrence of `sep`; empty pieces are kept. -/
def splitChars (sep : Char) : List Char → List (List Char)
  | [] => [[]]
  | c :: cs =>
      if c = sep then [] :: splitChars sep cs
      else
        match splitChars sep cs with
        | [] => [[c]]
        | w :: ws => (c :: w) :: ws

/-- Glue pieces together with `sep` between neighbours. -/
def joinChars (sep : Char) : List (List Char) → List Char
  | [] => []
  | [w] => w
  | w :: v :: ws => w ++ sep :: joinChars sep (v :: ws)

/-- The call `text.split(' ')`. -/
def splitSpace (text : String) : List String :=
  (splitChars ' ' text.toList).map String.mk

/-- The call `parts.join(' ')`. -/
def joinSpace (parts : List String) : String :=
  String.mk (joinChars ' ' (parts.map String.toList))

/-- Lower-casing of the letters `A` to `Z`, the other characters unchanged. -/
def asciiLower (s : String) : String := String.mk (s.toList.map Char.toLower)

/-- Upper-casing of the letters `a` to `z`, the other characters unchanged. -/
def asciiUpper (s : String) : String := String.mk (s.toList.map Char.toUpper)

/-- Rendering of a primitive value inside a template literal. -/
def plainDisplay : JsValue → String
  | .undefined => "undefined"
  | .null => "null"
  | .bool b => if b then "true" else "false"
  | .number q => if q.den = 1 then toString q.num else toString q.num ++ "/" ++ toString q.den
  | .nan => "NaN"
  | .string s => s
  | .array _ => ""
  | .object _ => "[object Object]"

/-- The hexadecimal digit of a number below sixteen. -/
def hexDigit (n : Nat) : Char := "0123456789ABCDEF".toList.getD n '0'

/-- Is the character left as it is by `encodeURIComponent`. -/
def uriUnreserved (c : Char) : Bool :=
  c.isAlphanum || "-_.!~*()".toList.contains c || c = Char.ofNat 39

/-- The function `encodeURIComponent`: every other character is replaced by the
escapes of its UTF-8 bytes. -/
def percentEncode (s : String) : String :=
  String.mk (s.toList.flatMap (fun c =>
    if uriUnreserved c then [c]
    else (String.utf8EncodeChar c).flatMap (fun b =>
      ['%', hexDigit (b.toNat / 16), hexDigit (b.toNat % 16)])))

/-- An instance of the runtime functions, used in the examples. Its case
conversions agree with the JavaScript runtime on ASCII text; its renderings of
values are those of the runtime on strings, booleans, `null`, `undefined`, `NaN`
and integers, and it does not render the other values. -/
def asciiBuiltins : Builtins :=
  { toLowerCase := asciiLower
    toUpperCase := asciiUpper
    encodeURIComponent := percentEncode
    toLocaleString := plainDisplay
    display := plainDisplay }

/-! ## The chat context -/

/-- The sender of an update (`ctx.from`). -/
structure Sender where
  id : Nat
  username : Option String
  first_name : String

/-- The context handed to a handler: the message text, the sender, and the chat
transport. The transport is asked with the trace whose last event is the send
being attempted and answers `none` when the send succeeds or the value the send
rejects with. -/
structure Ctx where
  text : String
  sender : Sender
  transport : List Event → Option Thrown

/-- The call `ctx.reply(text)`. -/
def Ctx.reply (ctx : Ctx) (text : String) : Async Unit := fun tr =>
  match ctx.transport (tr ++ [Event.reply text]) with
  | none => (.ok (), tr ++ [Event.reply text])
  | some e => (.error e, tr ++ [Event.reply text])

/-- The call `ctx.replyWithMarkdown(text)`. -/
def Ctx.replyWithMarkdown (ctx : Ctx) (text : String) : Async Unit := fun tr =>
  match ctx.transport (tr ++ [Event.replyWithMarkdown text]) with
  | none => (.ok (), tr ++ [Event.replyWithMarkdown text])
  | some e => (.error e, tr ++ [Event.replyWithMarkdown text])

/-! ## `src/utils/errorHandler.js`, continued -/

/-- The generic user message of `handleError`. -/
def ErrorHandler.genericMessage : String :=
  "Sorry, something went wrong. Please try again later."

/-- The expression `customMessage || generic`, where `customMessage` defaults to `null`. -/
def ErrorHandler.userMessage (customMessage : Option String) : String :=
  match customMessage with
  | some m => strOr m ErrorHandler.genericMessage
  | none => ErrorHandler.genericMessage

/-- The expression `error?.message || error?.toString() || 'Unknown error'`: the
optional chaining makes both reads `undefined` on `undefined` and `null`. -/
def ErrorHandler.errorMessage (error : Thrown) : String :=
  match error with
  | .undefined => "Unknown error"
  | .null => "Unknown error"
  | .str s => strOr s "Unknown error"
  | .error e => strOr (strOr e.message e.toString) "Unknown error"

/-- The expression `replyError.message || replyError` inside the template literal
of the second log line. The read of `message` is not guarded: on `undefined` and
`null` it throws. -/
def ErrorHandler.replyErrorText (replyError : Thrown) : Except JsError String :=
  match replyError with
  | .undefined => .error (JsError.typeError "undefined" "message")
  | .null => .error (JsError.typeError "null" "message")
  | .str s => .ok s
  | .error e => .ok (strOr e.message e.toString)

/-- The static method `handleError(ctx, error, customMessage = null)`. -/
def ErrorHandler.handleError (logger : Logger) (ctx : Ctx) (error : Thrown)
    (customMessage : Option String) : Async Unit := do
  let errorMessage := ErrorHandler.errorMessage error
  logger.error ("Error occurred: " ++ errorMessage) []
  let userMessage := ErrorHandler.userMessage customMessage
  tryCatch (ctx.reply userMessage) (fun replyError => do
    let text ← Async.ofExcept (ErrorHandler.replyErrorText replyError)
    logger.error ("Failed to send error message: " ++ text) [])

/-- The static method `wrapAsync(fn)`: the adapter `(ctx, next) => ...`. The adapter
calls the function it was given on its own, `fn(ctx, next)`: `fn` here is that
call, in which `this` is `undefined`. -/
def ErrorHandler.wrapAsync (logger : Logger) (fn : Ctx → Async Unit → Async Unit)
    (ctx : Ctx) (next : Async Unit) : Async Unit :=
  tryCatch (fn ctx next) (fun error => ErrorHandler.handleError logger ctx error none)

/-! ## `src/handlers/responses.js` -/

/-- The static method `isGreeting(text)`. -/
def ResponseHandler.isGreeting (text : String) : Bool :=
  let greetings := ["hi", "hello", "hey", "good morning", "good afternoon", "good evening",
    "greetings"]
  greetings.any (fun greeting => includes text greeting)

/-- The static method `isThankYou(text)`. -/
def ResponseHandler.isThankYou (text : String) : Bool :=
  let thanks := ["thank", "thanks", "thx", "appreciate"]
  thanks.any (fun thank => includes text thank)

/-- The static method `isQuestion(text)`. -/
def ResponseHandler.isQuestion (text : String) : Bool :=
  let questionWords := ["what", "how", "when", "where", "why", "who", "which", "?"]
  questionWords.any (fun word => includes text word) || endsWith text "?"

/-- The greeting reply. -/
def ResponseHandler.greetingReply (first_name : String) : String :=
  "Hello " ++ first_name ++ "! 👋\n\nHow can I help you today? Use /help to see available commands."

/-- The thank-you reply. -/
def ResponseHandler.thankYouReply : String :=
  "You\x27re welcome! 😊\n\nIs there anything else I can help you with?"

/-- The question reply. -/
def ResponseHandler.questionReply : String :=
  "I\x27m here to help! 🤔\n\n" ++
  "You can use commands like:\n" ++
  "• /quote - Get a random quote\n" ++
  "• /crypto bitcoin - Get crypto prices\n" ++
  "• /weather London - Get weather info\n\n" ++
  "Or use /help for more options!"

/-- The default reply, echoing the message text as received. -/
def ResponseHandler.defaultReply (original : String) : String :=
  "I received your message: \"" ++ original ++ "\"\n\n" ++
  "I can help you with various tasks. Use /help to see all available commands!"

/-- The value of `this` inside a static method of `ResponseHandler`: the class
when the method is called on it (`ResponseHandler.handleTextMessage(ctx)`), and
`undefined` when the function is called on its own, as module code is strict. -/
inductive Receiver where
  | undefined
  | responseHandler

/-- The call `this.method(text)` of one of the three tests, whose answer on the
class is `result`: reading the method from `undefined` throws. -/
def Receiver.call (receiver : Receiver) (method : String) (result : Bool) : Async Bool :=
  match receiver with
  | .undefined => throw (Thrown.error (JsError.typeError "undefined" method))
  | .responseHandler => pure result

/-- The static method `handleTextMessage(ctx)`, run with the given `this`. -/
def ResponseHandler.handleTextMessage (B : Builtins) (logger : Logger) (receiver : Receiver)
    (ctx : Ctx) : Async Unit :=
  tryCatch (do
    let text := B.toLowerCase ctx.text
    let userId := ctx.sender.id
    let username := strOr (ctx.sender.username.getD "") ctx.sender.first_name
    logger.info ("Message from " ++ username ++ " (" ++ toString userId ++ "): " ++ text) []
    let greeting ← receiver.call "isGreeting" (ResponseHandler.isGreeting text)
    if greeting then
      ctx.reply (ResponseHandler.greetingReply ctx.sender.first_name)
    else do
      let thanks ← receiver.call "isThankYou" (ResponseHandler.isThankYou text)
      if thanks then
        ctx.reply ResponseHandler.thankYouReply
      else do
        let question ← receiver.call "isQuestion" (ResponseHandler.isQuestion text)
        if question then
          ctx.reply ResponseHandler.questionReply
        else
          ctx.reply (ResponseHandler.defaultReply ctx.text))
    (fun error => ErrorHandler.handleError logger ctx error none)

/-! ## `src/index.js` -/

/-- The handler that `setupHandlers` registers for text updates,
`ErrorHandler.wrapAsync(ResponseHandler.handleTextMessage)`: the method is passed
without its class, so the adapter runs it with `this` being `undefined`. -/
def Bot.onText (B : Builtins) (logger : Logger) (ctx : Ctx) (next : Async Unit) : Async Unit :=
  ErrorHandler.wrapAsync logger
    (fun ctx _ => ResponseHandler.handleTextMessage B logger Receiver.undefined ctx) ctx next

/-! ## `src/services/apiService.js` -/

/-- The answer of the network to an outbound request: asked with the trace whose
last event is the request, it gives the response object the HTTP client resolves
with or the error it rejects with. -/
def Net : Type := List Event → Except JsError JsValue

/-- The call `axios.get(url, options)`. The timeout option is not modelled. -/
def axiosGet (net : Net) (url : String) : Async JsValue := fun tr =>
  (liftResult (net (tr ++ [Event.httpGet url])), tr ++ [Event.httpGet url])

/-- The property read `v.key` inside an asynchronous function. -/
def prop (v : JsValue) (key : String) : Async JsValue := Async.ofExcept (v.get key)

/-- The indexed read `v[0]` inside an asynchronous function. -/
def first (v : JsValue) : Async JsValue := Async.ofExcept (v.index 0)

/-- The test `error.code === 'ENOTFOUND' || error.code === 'ECONNREFUSED'` on an
`Error` object. -/
def isNetworkError (error : JsError) : Bool :=
  decide (error.code = some "ENOTFOUND") || decide (error.code = some "ECONNREFUSED")

/-- The same test on a caught value: a string has no `code`, and reading `code`
from `undefined` or `null` throws. -/
def caughtIsNetworkError (error : Thrown) : Except JsError Bool :=
  match error with
  | .undefined => .error (JsError.typeError "undefined" "code")
  | .null => .error (JsError.typeError "null" "code")
  | .str _ => .ok false
  | .error e => .ok (isNetworkError e)

/-- The argument `error.message` of a log call on a caught value that is not
`undefined` or `null`, as the console prints it. -/
def caughtMessage (error : Thrown) : String :=
  match error with
  | .error e => e.message
  | _ => "undefined"

/-- The record returned by `getWeatherData`. -/
structure WeatherResult where
  location : JsValue
  country : JsValue
  temp : JsValue
  feelsLike : JsValue
  description : JsValue
  humidity : JsValue
  windSpeed : JsValue

/-- The address requested by `getWeatherData`. -/
def ApiService.weatherUrl (B : Builtins) (city : String) : String :=
  "https://wttr.in/" ++ B.encodeURIComponent city ++ "?format=j1"

/-- The error every failure of `getWeatherData` other than a network error is turned into. -/
def ApiService.weatherFailure (city : String) : JsError :=
  JsError.new ("Unable to fetch weather data for " ++ city ++
    ". Please check the city name and try again.")

/-- The method `getWeatherData(city)`. -/
def ApiService.getWeatherData (B : Builtins) (logger : Logger) (net : Net) (city : String) :
    Async WeatherResult :=
  tryCatch (do
    let response ← axiosGet net (ApiService.weatherUrl B city)
    let data ← prop response "data"
    if !data.truthy then
      throw (Thrown.error (JsError.new "Invalid weather data received"))
    let current_condition ← prop data "current_condition"
    if !current_condition.truthy then
      throw (Thrown.error (JsError.new "Invalid weather data received"))
    let current ← first current_condition
    let nearest_area ← prop data "nearest_area"
    let location ← first nearest_area
    let areaName ← prop location "areaName"
    let areaName0 ← first areaName
    let locationValue ← prop areaName0 "value"
    let country ← prop location "country"
    let country0 ← first country
    let countryValue ← prop country0 "value"
    let temp ← prop current "temp_C"
    let feelsLike ← prop current "FeelsLikeC"
    let weatherDesc ← prop current "weatherDesc"
    let weatherDesc0 ← first weatherDesc
    let description ← prop weatherDesc0 "value"
    let humidity ← prop current "humidity"
    let windSpeed ← prop current "windspeedKmph"
    pure
      { location := locationValue
        country := countryValue
        temp := temp
        feelsLike := feelsLike
        description := description
        humidity := humidity
        windSpeed := windSpeed })
    (fun error => do
      let network ← Async.ofExcept (caughtIsNetworkError error)
      if network then do
        logger.error ("Network error fetching weather for " ++ city) []
        throw (Thrown.error (JsError.new "Network error: Unable to connect to weather service"))
      else do
        logger.error ("Failed to fetch weather for " ++ city ++ ":") [caughtMessage error]
        throw (Thrown.error (ApiService.weatherFailure city)))

/-- The method `getRandomQuote()`. -/
def ApiService.getRandomQuote (logger : Logger) (net : Net) : Async JsValue :=
  tryCatch (do
    let response ← axiosGet net "https://api.quotable.io/random"
    let data ← prop response "data"
    if !data.truthy then
      throw (Thrown.error (JsError.new "Invalid quote data received"))
    let content ← prop data "content"
    if !content.truthy then
      throw (Thrown.error (JsError.new "Invalid quote data received"))
    pure data)
    (fun error => do
      let network ← Async.ofExcept (caughtIsNetworkError error)
      if network then do
        logger.error "Network error fetching quote" []
        throw (Thrown.error (JsError.new "Network error: Unable to connect to quote service"))
      else do
        logger.error "Failed to fetch quote:" [caughtMessage error]
        throw (Thrown.error (JsError.new "Unable to fetch quote. Please try again later.")))

/-- The address requested by `getCryptoPrice`. -/
def ApiService.cryptoUrl (B : Builtins) (symbol : String) : String :=
  "https://api.coingecko.com/api/v3/simple/price?ids=" ++ B.encodeURIComponent symbol ++
    "&vs_currencies=usd"

/-- The error every failure of `getCryptoPrice` other than a network error is turned into. -/
def ApiService.cryptoFailure (symbol : String) : JsError :=
  JsError.new ("Unable to fetch price for " ++ symbol ++
    ". Please check the symbol and try again.")

/-- The method `getCryptoPrice(symbol)`. -/
def ApiService.getCryptoPrice (B : Builtins) (logger : Logger) (net : Net) (symbol : String) :
    Async JsValue :=
  tryCatch (do
    let response ← axiosGet net (ApiService.cryptoUrl B symbol)
    let data ← prop response "data"
    if !data.truthy then
      throw (Thrown.error (JsError.new "Cryptocurrency not found"))
    if data.keysLength = 0 then
      throw (Thrown.error (JsError.new "Cryptocurrency not found"))
    pure data)
    (fun error => do
      let network ← Async.ofExcept (caughtIsNetworkError error)
      if network then do
        logger.error ("Network error fetching crypto price for " ++ symbol) []
        throw (Thrown.error (JsError.new "Network error: Unable to connect to cryptocurrency service"))
      else do
        logger.error ("Failed to fetch crypto price for " ++ symbol ++ ":") [caughtMessage error]
        throw (Thrown.error (ApiService.cryptoFailure symbol)))

/-! ## `src/handlers/commands.js` -/

/-- The fallback message of the `quote` command. -/
def CommandsHandler.quoteFallback : String :=
  "Sorry, I couldn\x27t fetch a quote right now. Please try again later."

/-- The fallback message of the `crypto` command. -/
def CommandsHandler.cryptoFallback : String :=
  "Sorry, I couldn\x27t fetch the cryptocurrency price. Please check the symbol and try again."

/-- The fallback message of the `weather` command. -/
def CommandsHandler.weatherFallback : String :=
  "Sorry, I couldn\x27t fetch weather data for that location. " ++
  "Please try again with a valid city name."

/-- The reply of the `crypto` command when the price data has no usable entry. -/
def CommandsHandler.cryptoNotFound (symbol : String) : String :=
  "Sorry, I couldn\x27t find price data for " ++ symbol ++ "."

/-- The static method `quote(ctx)`. -/
def CommandsHandler.quote (B : Builtins) (logger : Logger) (net : Net) (ctx : Ctx) : Async Unit :=
  tryCatch (do
    ctx.reply "📖 Fetching a quote for you..."
    let quoteData ← ApiService.getRandomQuote logger net
    let author ← prop quoteData "author"
    let content ← prop quoteData "content"
    let message := "💬 *" ++ B.display author ++ "*\n\n\"" ++ B.display content ++ "\""
    ctx.replyWithMarkdown message
    logger.info ("Quote sent to user " ++ toString ctx.sender.id) [])
    (fun error => ErrorHandler.handleError logger ctx error (some CommandsHandler.quoteFallback))

/-- The first line of `crypto`:
`ctx.message.text.split(' ')[1]?.toLowerCase() || 'bitcoin'`. -/
def CommandsHandler.cryptoSymbol (B : Builtins) (text : String) : String :=
  match (splitSpace text).get? 1 with
  | some token => strOr (B.toLowerCase token) "bitcoin"
  | none => "bitcoin"

/-- The static method `crypto(ctx)`. -/
def CommandsHandler.crypto (B : Builtins) (logger : Logger) (net : Net) (ctx : Ctx) : Async Unit :=
  tryCatch (do
    let symbol := CommandsHandler.cryptoSymbol B ctx.text
    ctx.reply ("💰 Fetching " ++ symbol ++ " price...")
    let priceData ← ApiService.getCryptoPrice B logger net symbol
    let entry ← prop priceData symbol
    let usd ← if entry.truthy then prop entry "usd" else pure entry
    if usd.truthy then
      let message := "💵 *" ++ B.toUpperCase symbol ++ "*\n\nPrice: $" ++ B.toLocaleString usd
      ctx.replyWithMarkdown message
    else
      ctx.reply (CommandsHandler.cryptoNotFound symbol)
    logger.info ("Crypto price sent to user " ++ toString ctx.sender.id ++ " for " ++ symbol) [])
    (fun error => ErrorHandler.handleError logger ctx error (some CommandsHandler.cryptoFallback))

/-- The first line of `weather`:
`ctx.message.text.split(' ').slice(1).join(' ') || 'London'`. -/
def CommandsHandler.weatherCity (text : String) : String :=
  strOr (joinSpace ((splitSpace text).drop 1)) "London"

/-- The third argument of `handleError` in the `catch` of `weather`, the
expression `error.message || fallback`: a string has no `message`, and reading
`message` from `undefined` or `null` throws. -/
def CommandsHandler.weatherCustomMessage (error : Thrown) : Except JsError String :=
  match error with
  | .undefined => .error (JsError.typeError "undefined" "message")
  | .null => .error (JsError.typeError "null" "message")
  | .str _ => .ok CommandsHandler.weatherFallback
  | .error e => .ok (strOr e.message CommandsHandler.weatherFallback)

/-- The static method `weather(ctx)`. -/
def CommandsHandler.weather (B : Builtins) (logger : Logger) (net : Net) (ctx : Ctx) : Async Unit :=
  tryCatch (do
    let city := CommandsHandler.weatherCity ctx.text
    ctx.reply ("🌤️ Fetching weather for " ++ city ++ "...")
    let weatherData ← ApiService.getWeatherData B logger net city
    let message := "🌡️ *Weather in " ++ B.display weatherData.location ++ ", " ++
      B.display weatherData.country ++ "*\n\n" ++
      "🌡️ Temperature: " ++ B.display weatherData.temp ++ "°C\n" ++
      "🤔 Feels like: " ++ B.display weatherData.feelsLike ++ "°C\n" ++
      "☁️ Condition: " ++ B.display weatherData.description ++ "\n" ++
      "💧 Humidity: " ++ B.display weatherData.humidity ++ "%\n" ++
      "💨 Wind: " ++ B.display weatherData.windSpeed ++ " km/h"
    ctx.replyWithMarkdown message
    logger.info ("Weather sent to user " ++ toString ctx.sender.id ++ " for " ++ city) [])
    (fun error => do
      let customMessage ← Async.ofExcept (CommandsHandler.weatherCustomMessage error)
      ErrorHandler.handleError logger ctx error (some customMessage))

/-! ## Notions used to state the properties -/

/-- The texts handed to the chat transport in a trace, in order. -/
def sends : List Event → List String
  | [] => []
  | Event.reply text :: rest => text :: sends rest
  | Event.replyWithMarkdown text :: rest => text :: sends rest
  | _ :: rest => sends rest

/-- The four kinds of free-text message. -/
inductive Category where
  | greeting
  | thankYou
  | question
  | fallback
  deriving DecidableEq

/-- The text contains one of the keywords as a contiguous substring. -/
def containsAny (keywords : List String) (text : String) : Prop :=
  ∃ k ∈ keywords, k.toList <:+: text.toList

instance (keywords : List String) (text : String) : Decidable (containsAny keywords text) := by
  unfold containsAny; infer_instance

/-- The classification of a lower-cased text as the specification words it:
greeting keywords first, then thank-you keywords, then question keywords or a
final question mark, else the default. -/
def classify (lowered : String) : Category :=
  if containsAny ["hi", "hello", "hey", "good morning", "good afternoon", "good evening",
      "greetings"] lowered then Category.greeting
  else if containsAny ["thank", "thanks", "thx", "appreciate"] lowered then Category.thankYou
  else if containsAny ["what", "how", "when", "where", "why", "who", "which", "?"] lowered
      ∨ ['?'] <:+ lowered.toList then Category.question
  else Category.fallback

/-- The reply of each category for a given context. -/
def categoryReply (ctx : Ctx) : Category → String
  | Category.greeting => ResponseHandler.greetingReply ctx.sender.first_name
  | Category.thankYou => ResponseHandler.thankYouReply
  | Category.question => ResponseHandler.questionReply
  | Category.fallback => ResponseHandler.defaultReply ctx.text

/-- A context for the examples: the sender is Ann and every send succeeds. -/
def sampleCtx (text : String) : Ctx :=
  { text := text
    sender := { id := 7, username := some "ann", first_name := "Ann" }
    transport := fun _ => none }

/-- A context whose every send is rejected with the given value. -/
def rejectingCtx (text : String) (thrown : Thrown) : Ctx :=
  { text := text
    sender := { id := 7, username := some "ann", first_name := "Ann" }
    transport := fun _ => some thrown }

/-- No send of the context is rejected with `undefined` or `null`. -/
def Ctx.rejectsWithValues (ctx : Ctx) : Prop :=
  ∀ t thrown, ctx.transport t = some thrown → thrown.nullish = false

/-- The computation never throws `undefined` or `null`. -/
structure ThrowsValues {α : Type} (m : Async α) : Prop where
  thrown : ∀ tr t tr1, m.run tr = (.error t, tr1) → t.nullish = false

/-- Two texts differ only in the case of their letters: they have the same
length and, position by position, the same character once lower-cased. -/
def sameUpToCase (a b : String) : Prop :=
  List.Forall₂ (fun x y => x.toLower = y.toLower) a.toList b.toList

/-- One step of a path into a value: a property name or an index. -/
inductive Step where
  | key (k : String)
  | idx (i : Nat)

/-- Follow a path of property and index reads from a value. -/
def readPath : List Step → JsValue → Except JsError JsValue
  | [], v => .ok v
  | Step.key k :: rest, v =>
      match v.get k with
      | .ok x => readPath rest x
      | .error e => .error e
  | Step.idx i :: rest, v =>
      match v.index i with
      | .ok x => readPath rest x
      | .error e => .error e

/-- A network that answers every request with the given body. -/
def answering (body : JsValue) : Net := fun _ => .ok (.object [("status", .number 200), ("data", body)])

/-- A network that rejects every request with the given error. -/
def rejecting (error : JsError) : Net := fun _ => .error error

/-- The error the HTTP client rejects with when the provider answers with status 500. -/
def serverError : JsError :=
  { message := "Request failed with status code 500", code := some "ERR_BAD_RESPONSE" }

/-- The error the HTTP client rejects with when the host name cannot be resolved. -/
def hostNotFound : JsError :=
  { message := "getaddrinfo ENOTFOUND", code := some "ENOTFOUND" }

/-- A weather payload that has both sections but no temperature, humidity or wind entries. -/
def sparseWeather : JsValue :=
  .object [
    ("current_condition", .array [.object [("weatherDesc", .array [.object [("value", .string "Sunny")]])]]),
    ("nearest_area", .array [.object [
      ("areaName", .array [.object [("value", .string "London")]]),
      ("country", .array [.object [("value", .string "United Kingdom")]])]])]

/-- The computation only adds events at the end of the trace. -/
structure Extends {α : Type} (m : Async α) : Prop where
  grows : ∀ tr, ∃ new, (m.run tr).2 = tr ++ new

/-- Cut a character list at every character that satisfies `p`; empty pieces are kept. -/
def splitWhere (p : Char → Bool) : List Char → List (List Char)
  | [] => [[]]
  | c :: cs =>
      if p c then [] :: splitWhere p cs
      else
        match splitWhere p cs with
        | [] => [[c]]
        | w :: ws => (c :: w) :: ws

/-- The whitespace-separated tokens of a text. -/
def tokens (text : String) : List String :=
  ((splitWhere Char.isWhitespace text.toList).filter (fun w => !w.isEmpty)).map String.mk

/-- The argument of a command as the specification words it: the first
whitespace-separated token following the command name, or the given default when
there is no such token. -/
def specArgument (text fallback : String) : String :=
  ((tokens text).get? 1).getD fallback

/-! ## Running computations -/

@[simp] theorem run_pure {α : Type} (a : α) (tr : List Event) :
    (pure a : Async α).run tr = (.ok a, tr) := rfl

@[simp] theorem run_bind {α β : Type} (m : Async α) (f : α → Async β) (tr : List Event) :
    (m >>= f).run tr =
      match m.run tr with
      | (.ok a, tr1) => (f a).run tr1
      | (.error e, tr1) => (.error e, tr1) := rfl

@[simp] theorem run_throw {α : Type} (e : Thrown) (tr : List Event) :
    (throw e : Async α).run tr = (.error e, tr) := rfl

@[simp] theorem run_tryCatch {α : Type} (body : Async α) (handler : Thrown → Async α)
    (tr : List Event) :
    (tryCatch body handler).run tr =
      match body.run tr with
      | (.ok a, tr1) => (.ok a, tr1)
      | (.error e, tr1) => (handler e).run tr1 := rfl

@[simp] theorem liftResult_ok {α : Type} (a : α) :
    liftResult (.ok a : Except JsError α) = .ok a := rfl

@[simp] theorem liftResult_error {α : Type} (e : JsError) :
    liftResult (.error e : Except JsError α) = .error (Thrown.error e) := rfl

@[simp] theorem run_ofExcept {α : Type} (x : Except JsError α) (tr : List Event) :
    (Async.ofExcept x).run tr = (liftResult x, tr) := rfl

theorem emits_error (logger : Logger) : logger.emits "error" = true := by
  simp [Logger.emits, Logger.levels]

@[simp] theorem run_logger_error (logger : Logger) (message : String) (args : List String)
    (tr : List Event) :
    (logger.error message args).run tr = (.ok (), tr ++ [Event.console "error" message args]) := by
  simp [Logger.error, Logger.log, Async.run, emits_error]

theorem run_reply (ctx : Ctx) (text : String) (tr : List Event) :
    (ctx.reply text).run tr =
      match ctx.transport (tr ++ [Event.reply text]) with
      | none => (.ok (), tr ++ [Event.reply text])
      | some e => (.error e, tr ++ [Event.reply text]) := rfl

/-- The run of `handleError`: the log line, the reply, and, when the reply is
rejected, either the second log line or the error of reading the rejection. -/
theorem run_handleError (logger : Logger) (ctx : Ctx) (error : Thrown)
    (customMessage : Option String) (tr : List Event) :
    (ErrorHandler.handleError logger ctx error customMessage).run tr =
      match ctx.transport (tr ++ [Event.console "error"
          ("Error occurred: " ++ ErrorHandler.errorMessage error) [],
          Event.reply (ErrorHandler.userMessage customMessage)]) with
      | none => (.ok (), tr ++ [Event.console "error"
          ("Error occurred: " ++ ErrorHandler.errorMessage error) [],
          Event.reply (ErrorHandler.userMessage customMessage)])
      | some replyError =>
          match ErrorHandler.replyErrorText replyError with
          | .ok text => (.ok (), tr ++ [Event.console "error"
              ("Error occurred: " ++ ErrorHandler.errorMessage error) [],
              Event.reply (ErrorHandler.userMessage customMessage),
              Event.console "error" ("Failed to send error message: " ++ text) []])
          | .error e => (.error (Thrown.error e), tr ++ [Event.console "error"
              ("Error occurred: " ++ ErrorHandler.errorMessage error) [],
              Event.reply (ErrorHandler.userMessage customMessage)]) := by
  simp only [ErrorHandler.handleError, run_bind, run_logger_error,
    run_tryCatch, run_reply, List.append_assoc, List.singleton_append, run_ofExcept]
  cases h : ctx.transport (tr ++ [Event.console "error"
            ("Error occurred: " ++ ErrorHandler.errorMessage error) [],
            Event.reply (ErrorHandler.userMessage customMessage)]) with
  | none => simp
  | some replyError =>
    simp only
    cases h2 : ErrorHandler.replyErrorText replyError <;> simp

theorem replyErrorText_of_values (thrown : Thrown) (h : thrown.nullish = false) :
    ∃ text, ErrorHandler.replyErrorText thrown = .ok text := by
  cases thrown with
  | undefined => simp [Thrown.nullish] at h
  | null => simp [Thrown.nullish] at h
  | str s => exact ⟨_, rfl⟩
  | error e => exact ⟨_, rfl⟩

/-- When no send is rejected with `undefined` or `null`, `handleError` completes. -/
theorem handleError_ok (logger : Logger) (ctx : Ctx) (h : ctx.rejectsWithValues)
    (error : Thrown) (customMessage : Option String) (tr : List Event) :
    ((ErrorHandler.handleError logger ctx error customMessage).run tr).1 = .ok () := by
  rw [run_handleError]
  cases ht : ctx.transport (tr ++ [Event.console "error"
            ("Error occurred: " ++ ErrorHandler.errorMessage error) [],
            Event.reply (ErrorHandler.userMessage customMessage)]) with
  | none => rfl
  | some replyError =>
    obtain ⟨text, htext⟩ := replyErrorText_of_values replyError (h _ _ ht)
    simp only [htext]

theorem sends_append (a b : List Event) : sends (a ++ b) = sends a ++ sends b := by
  induction a with
  | nil => rfl
  | cons e rest ih => cases e <;> simp [sends, ih]

/-- Whatever the transport does, `handleError` hands exactly its user message to the chat. -/
theorem handleError_sends (logger : Logger) (ctx : Ctx) (error : Thrown)
    (customMessage : Option String) (tr : List Event) :
    ∃ new, ((ErrorHandler.handleError logger ctx error customMessage).run tr).2 = tr ++ new ∧
      sends new = [ErrorHandler.userMessage customMessage] := by
  rw [run_handleError]
  cases ht : ctx.transport (tr ++ [Event.console "error"
            ("Error occurred: " ++ ErrorHandler.errorMessage error) [],
            Event.reply (ErrorHandler.userMessage customMessage)]) with
  | none => exact ⟨_, rfl, rfl⟩
  | some replyError =>
    simp only
    cases h2 : ErrorHandler.replyErrorText replyError with
    | ok text => exact ⟨_, rfl, rfl⟩
    | error e => exact ⟨_, rfl, rfl⟩

/-! ## The adapter `wrapAsync` -/

/-- C2: the adapter returned by `wrapAsync(fn)` hands every value `fn` rejects with
to `handleError`, and it never rejects as long as no send to the chat is rejected
with `undefined` or `null`: a rejected error reply is then logged and not
propagated. When the error reply is rejected with `undefined`, the unguarded read
`replyError.message` in the `catch` of `handleError` throws a `TypeError`, and the
adapter rejects with it: so it does for a handler that throws `Error('boom')`
while every send is rejected with `undefined`. -/
theorem wrapAsync_rejects_when_reply_rejects_undefined (logger : Logger)
    (fn : Ctx → Async Unit → Async Unit) (ctx : Ctx) (next : Async Unit) (tr : List Event) :
    (∀ error tr1, (fn ctx next).run tr = (.error error, tr1) →
      (ErrorHandler.wrapAsync logger fn ctx next).run tr =
        (ErrorHandler.handleError logger ctx error none).run tr1) ∧
    (ctx.rejectsWithValues →
      ((ErrorHandler.wrapAsync logger fn ctx next).run tr).1 = .ok ()) ∧
    (∀ error tr1 replyError text, (fn ctx next).run tr = (.error error, tr1) →
      ctx.transport (tr1 ++ [Event.console "error"
          ("Error occurred: " ++ ErrorHandler.errorMessage error) [],
          Event.reply ErrorHandler.genericMessage]) = some replyError →
      ErrorHandler.replyErrorText replyError = .ok text →
      (ErrorHandler.wrapAsync logger fn ctx next).run tr =
        (.ok (), tr1 ++ [Event.console "error"
          ("Error occurred: " ++ ErrorHandler.errorMessage error) [],
          Event.reply ErrorHandler.genericMessage,
          Event.console "error" ("Failed to send error message: " ++ text) []])) ∧
    (∀ error tr1, (fn ctx next).run tr = (.error error, tr1) →
      ctx.transport (tr1 ++ [Event.console "error"
          ("Error occurred: " ++ ErrorHandler.errorMessage error) [],
          Event.reply ErrorHandler.genericMessage]) = some Thrown.undefined →
      (ErrorHandler.wrapAsync logger fn ctx next).run tr =
        (.error (Thrown.error (JsError.typeError "undefined" "message")),
          tr1 ++ [Event.console "error"
            ("Error occurred: " ++ ErrorHandler.errorMessage error) [],
            Event.reply ErrorHandler.genericMessage])) ∧
    (ErrorHandler.wrapAsync (Logger.create "info")
        (fun _ _ => throw (Thrown.error (JsError.new "boom")))
        (rejectingCtx "hello" Thrown.undefined) (pure ())).run [] =
      (.error (Thrown.error
          (JsError.new "Cannot read properties of undefined (reading \x27message\x27)")),
        [Event.console "error" "Error occurred: boom" [],
          Event.reply "Sorry, something went wrong. Please try again later."]) := by
  refine ⟨?_, ?_, ?_, ?_, rfl⟩
  · intro error tr1 h
    simp only [ErrorHandler.wrapAsync, run_tryCatch, h]
  · intro hv
    simp only [ErrorHandler.wrapAsync, run_tryCatch]
    rcases h : (fn ctx next).run tr with ⟨e | u, tr1⟩
    · exact handleError_ok logger ctx hv e none tr1
    · cases u; rfl
  · intro error tr1 replyError text h hsend htext
    simp only [ErrorHandler.wrapAsync, run_tryCatch, h, run_handleError,
      ErrorHandler.userMessage, hsend, htext]
  · intro error tr1 h hsend
    simp only [ErrorHandler.wrapAsync, run_tryCatch, h, run_handleError,
      ErrorHandler.userMessage, hsend, ErrorHandler.replyErrorText]

/-- C2 at a handler that throws `Error('boom')`: the adapter completes when every
send is rejected with an `Error` object, and rejects when every send is rejected
with `undefined`. -/
theorem wrapAsync_rejects_when_reply_rejects_undefined_witness :
    (ErrorHandler.wrapAsync (Logger.create "warn")
        (fun _ _ => throw (Thrown.error (JsError.new "boom")))
        (rejectingCtx "hello" (Thrown.error (JsError.new "chat unreachable")))
        (pure ())).run [] =
      (.ok (), [Event.console "error" "Error occurred: boom" [],
        Event.reply "Sorry, something went wrong. Please try again later.",
        Event.console "error" "Failed to send error message: chat unreachable" []]) ∧
    (ErrorHandler.wrapAsync (Logger.create "warn")
        (fun _ _ => throw (Thrown.error (JsError.new "boom")))
        (rejectingCtx "hello" Thrown.undefined) (pure ())).run [] =
      (.error (Thrown.error (JsError.typeError "undefined" "message")),
        [Event.console "error" "Error occurred: boom" [],
          Event.reply "Sorry, something went wrong. Please try again later."]) :=
  ⟨(wrapAsync_rejects_when_reply_rejects_undefined (Logger.create "warn")
      (fun _ _ => throw (Thrown.error (JsError.new "boom")))
      (rejectingCtx "hello" (Thrown.error (JsError.new "chat unreachable")))
      (pure ()) []).2.2.1 (Thrown.error (JsError.new "boom")) []
      (Thrown.error (JsError.new "chat unreachable")) "chat unreachable" rfl rfl rfl,
    (wrapAsync_rejects_when_reply_rejects_undefined (Logger.create "warn")
      (fun _ _ => throw (Thrown.error (JsError.new "boom")))
      (rejectingCtx "hello" Thrown.undefined) (pure ()) []).2.2.2.1
      (Thrown.error (JsError.new "boom")) [] rfl rfl⟩

/-! ## Substring tests -/

theorem includesChars_iff (l k : List Char) : includesChars l k = true ↔ k <:+: l := by
  induction l with
  | nil => simp [includesChars]
  | cons c cs ih =>
    simp only [includesChars, Bool.or_eq_true, List.isPrefixOf_iff_prefix, ih,
      List.infix_cons_iff]

theorem includes_iff (text k : String) : includes text k = true ↔ k.toList <:+: text.toList :=
  includesChars_iff _ _

theorem any_includes_iff (keywords : List String) (text : String) :
    keywords.any (fun k => includes text k) = true ↔ containsAny keywords text := by
  simp [containsAny, List.any_eq_true, includes_iff]

theorem isGreeting_iff (text : String) :
    ResponseHandler.isGreeting text = true ↔
      containsAny ["hi", "hello", "hey", "good morning", "good afternoon", "good evening",
        "greetings"] text := by
  simp only [ResponseHandler.isGreeting, any_includes_iff]

theorem isThankYou_iff (text : String) :
    ResponseHandler.isThankYou text = true ↔
      containsAny ["thank", "thanks", "thx", "appreciate"] text := by
  simp only [ResponseHandler.isThankYou, any_includes_iff]

theorem isQuestion_iff (text : String) :
    ResponseHandler.isQuestion text = true ↔
      (containsAny ["what", "how", "when", "where", "why", "who", "which", "?"] text
        ∨ ['?'] <:+ text.toList) := by
  simp only [ResponseHandler.isQuestion, Bool.or_eq_true, any_includes_iff, endsWith,
    List.isSuffixOf_iff_suffix]
  rfl

/-- The branch taken by `handleTextMessage`, as a function of the lower-cased text. -/
theorem branch_eq_classify (ctx : Ctx) (text : String) :
    (if ResponseHandler.isGreeting text then
        ResponseHandler.greetingReply ctx.sender.first_name
      else if ResponseHandler.isThankYou text then ResponseHandler.thankYouReply
      else if ResponseHandler.isQuestion text then ResponseHandler.questionReply
      else ResponseHandler.defaultReply ctx.text) = categoryReply ctx (classify text) := by
  unfold classify
  by_cases hg : ResponseHandler.isGreeting text = true
  · rw [if_pos hg, if_pos ((isGreeting_iff text).1 hg)]; rfl
  · rw [if_neg hg, if_neg (fun h => hg ((isGreeting_iff text).2 h))]
    by_cases ht : ResponseHandler.isThankYou text = true
    · rw [if_pos ht, if_pos ((isThankYou_iff text).1 ht)]; rfl
    · rw [if_neg ht, if_neg (fun h => ht ((isThankYou_iff text).2 h))]
      by_cases hq : ResponseHandler.isQuestion text = true
      · rw [if_pos hq, if_pos ((isQuestion_iff text).1 hq)]; rfl
      · rw [if_neg hq, if_neg (fun h => hq ((isQuestion_iff text).2 h))]; rfl

theorem run_logger_info (logger : Logger) (message : String) (args : List String)
    (tr : List Event) :
    (logger.info message args).run tr =
      (.ok (), tr ++ (if logger.emits "info" then [Event.console "info" message args] else [])) := by
  simp only [Logger.info, Logger.log, Async.run]
  split <;> simp

theorem tryCatch_reply (ctx : Ctx) (text : String) (handler : Thrown → Async Unit)
    (tr : List Event) :
    (tryCatch (ctx.reply text) handler).run tr =
      match ctx.transport (tr ++ [Event.reply text]) with
      | none => (.ok (), tr ++ [Event.reply text])
      | some e => (handler e).run (tr ++ [Event.reply text]) := by
  rw [run_tryCatch, run_reply]
  cases ctx.transport (tr ++ [Event.reply text]) <;> rfl

/-- The run of `handleTextMessage` called on its class: the log line if the
threshold lets it through, the reply of the category, and the error path if that
reply cannot be sent. -/
theorem run_handleTextMessage (B : Builtins) (logger : Logger) (ctx : Ctx) (tr : List Event) :
    (ResponseHandler.handleTextMessage B logger Receiver.responseHandler ctx).run tr =
      match ctx.transport (tr ++
          (if logger.emits "info" then [Event.console "info"
            ("Message from " ++ strOr (ctx.sender.username.getD "") ctx.sender.first_name ++
              " (" ++ toString ctx.sender.id ++ "): " ++ B.toLowerCase ctx.text) []] else []) ++
          [Event.reply (categoryReply ctx (classify (B.toLowerCase ctx.text)))]) with
      | none => (.ok (), tr ++
          (if logger.emits "info" then [Event.console "info"
            ("Message from " ++ strOr (ctx.sender.username.getD "") ctx.sender.first_name ++
              " (" ++ toString ctx.sender.id ++ "): " ++ B.toLowerCase ctx.text) []] else []) ++
          [Event.reply (categoryReply ctx (classify (B.toLowerCase ctx.text)))])
      | some e => (ErrorHandler.handleError logger ctx e none).run (tr ++
          (if logger.emits "info" then [Event.console "info"
            ("Message from " ++ strOr (ctx.sender.username.getD "") ctx.sender.first_name ++
              " (" ++ toString ctx.sender.id ++ "): " ++ B.toLowerCase ctx.text) []] else []) ++
          [Event.reply (categoryReply ctx (classify (B.toLowerCase ctx.text)))]) := by
  have hb := branch_eq_classify ctx (B.toLowerCase ctx.text)
  simp only [ResponseHandler.handleTextMessage, Receiver.call, run_tryCatch, run_bind,
    run_logger_info, run_pure]
  rw [← hb]
  cases hg : ResponseHandler.isGreeting (B.toLowerCase ctx.text) <;>
    cases ht : ResponseHandler.isThankYou (B.toLowerCase ctx.text) <;>
    cases hq : ResponseHandler.isQuestion (B.toLowerCase ctx.text) <;>
    simp only [Bool.false_eq_true, if_false, if_true, run_bind, run_pure] <;>
    exact (run_tryCatch _ _ _).symm.trans (tryCatch_reply _ _ _ _)

/-- The run of `handleTextMessage` called on its own: after the log line, the
read of `this.isGreeting` throws and the error path is taken. -/
theorem run_handleTextMessage_unbound (B : Builtins) (logger : Logger) (ctx : Ctx)
    (tr : List Event) :
    (ResponseHandler.handleTextMessage B logger Receiver.undefined ctx).run tr =
      (ErrorHandler.handleError logger ctx
        (Thrown.error (JsError.typeError "undefined" "isGreeting")) none).run (tr ++
          (if logger.emits "info" then [Event.console "info"
            ("Message from " ++ strOr (ctx.sender.username.getD "") ctx.sender.first_name ++
              " (" ++ toString ctx.sender.id ++ "): " ++ B.toLowerCase ctx.text) []]
            else [])) := by
  simp only [ResponseHandler.handleTextMessage, Receiver.call, run_tryCatch, run_bind,
    run_logger_info, run_throw]

theorem sends_info_line (logger : Logger) (message : String) :
    sends (if logger.emits "info" then [Event.console "info" message []] else []) = [] := by
  split <;> rfl

/-- The first two characters of each canned text tell the texts apart. -/
theorem categoryReply_start (ctx : Ctx) (c : Category) :
    (categoryReply ctx c).toList.take 2 =
      match c with
      | Category.greeting => ['H', 'e']
      | Category.thankYou => ['Y', 'o']
      | Category.question => ['I', Char.ofNat 39]
      | Category.fallback => ['I', ' '] := by
  cases c
  · show (ResponseHandler.greetingReply ctx.sender.first_name).toList.take 2 = _
    cases ctx.sender.first_name
    simp [ResponseHandler.greetingReply]
  · rfl
  · rfl
  · show (ResponseHandler.defaultReply ctx.text).toList.take 2 = _
    cases ctx.text
    simp [ResponseHandler.defaultReply]

theorem categoryReply_injective (ctx : Ctx) (c d : Category)
    (h : categoryReply ctx c = categoryReply ctx d) : c = d := by
  have hc := categoryReply_start ctx c
  have hd := categoryReply_start ctx d
  rw [h, hd] at hc
  cases c <;> cases d <;> first | rfl | (exact absurd hc (by decide))

theorem categoryReply_ne_generic (ctx : Ctx) (c : Category) :
    categoryReply ctx c ≠ ErrorHandler.genericMessage := by
  intro h
  have hc := categoryReply_start ctx c
  rw [h] at hc
  cases c <;> exact absurd hc (by decide)

/-- What a run of `handleTextMessage` called on its class adds to the trace. -/
theorem handleTextMessage_run_sends (B : Builtins) (logger : Logger) (ctx : Ctx)
    (tr : List Event) :
    ∃ new, ((ResponseHandler.handleTextMessage B logger Receiver.responseHandler ctx).run tr).2
        = tr ++ new ∧
      (sends new = [categoryReply ctx (classify (B.toLowerCase ctx.text))] ∨
        sends new = [categoryReply ctx (classify (B.toLowerCase ctx.text)),
          ErrorHandler.genericMessage]) := by
  rw [run_handleTextMessage]
  split
  · exact ⟨_, List.append_assoc _ _ _, Or.inl (by
      rw [sends_append, sends_info_line]; rfl)⟩
  · obtain ⟨new, hnew, hs⟩ := handleError_sends logger ctx _ none (tr ++
          (if logger.emits "info" then [Event.console "info"
            ("Message from " ++ strOr (ctx.sender.username.getD "") ctx.sender.first_name ++
              " (" ++ toString ctx.sender.id ++ "): " ++ B.toLowerCase ctx.text) []] else []) ++
          [Event.reply (categoryReply ctx (classify (B.toLowerCase ctx.text)))])
    rw [hnew]
    simp only [List.append_assoc]
    exact ⟨_, rfl, Or.inr (by
      rw [sends_append, sends_info_line, sends_append, hs]; rfl)⟩

/-- Wrapping a computation in a `catch` that calls `handleError` adds at most the
generic error message to what it hands to the chat. -/
theorem tryCatch_handleError_sends (logger : Logger) (ctx : Ctx) (body : Async Unit)
    (tr new : List Event) (hbody : (body.run tr).2 = tr ++ new) :
    ∃ new2, ((tryCatch body
        (fun error => ErrorHandler.handleError logger ctx error none)).run tr).2 = tr ++ new2 ∧
      (sends new2 = sends new ∨ sends new2 = sends new ++ [ErrorHandler.genericMessage]) := by
  rw [run_tryCatch]
  rcases hb : body.run tr with ⟨e | u, tr1⟩
  · rw [hb] at hbody
    simp only at hbody
    subst hbody
    obtain ⟨new3, h3, hs3⟩ := handleError_sends logger ctx e none (tr ++ new)
    exact ⟨new ++ new3, by simp only [h3, List.append_assoc], Or.inr (by
      rw [sends_append, hs3]; rfl)⟩
  · rw [hb] at hbody
    exact ⟨new, hbody, Or.inl rfl⟩

/-- What a run of `handleTextMessage` called on its own adds to the trace. -/
theorem handleTextMessage_unbound_sends (B : Builtins) (logger : Logger) (ctx : Ctx)
    (tr : List Event) :
    ∃ new, ((ResponseHandler.handleTextMessage B logger Receiver.undefined ctx).run tr).2
        = tr ++ new ∧ sends new = [ErrorHandler.genericMessage] := by
  rw [run_handleTextMessage_unbound]
  obtain ⟨new, hnew, hs⟩ := handleError_sends logger ctx
    (Thrown.error (JsError.typeError "undefined" "isGreeting")) none (tr ++
      (if logger.emits "info" then [Event.console "info"
        ("Message from " ++ strOr (ctx.sender.username.getD "") ctx.sender.first_name ++
          " (" ++ toString ctx.sender.id ++ "): " ++ B.toLowerCase ctx.text) []] else []))
  refine ⟨(if logger.emits "info" then [Event.console "info"
        ("Message from " ++ strOr (ctx.sender.username.getD "") ctx.sender.first_name ++
          " (" ++ toString ctx.sender.id ++ "): " ++ B.toLowerCase ctx.text) []] else []) ++ new,
    ?_, ?_⟩
  · rw [hnew, List.append_assoc]
  · rw [sends_append, sends_info_line, hs]; rfl

/-- What a run of the registered text handler adds to the trace: the generic
error message, once or twice, and nothing else. -/
theorem onText_run_sends (B : Builtins) (logger : Logger) (ctx : Ctx) (next : Async Unit)
    (tr : List Event) :
    ∃ new, ((Bot.onText B logger ctx next).run tr).2 = tr ++ new ∧
      (sends new = [ErrorHandler.genericMessage] ∨
        sends new = [ErrorHandler.genericMessage, ErrorHandler.genericMessage]) := by
  obtain ⟨new, hnew, hs⟩ := handleTextMessage_unbound_sends B logger ctx tr
  obtain ⟨new2, hnew2, hs2⟩ := tryCatch_handleError_sends logger ctx _ tr new hnew
  rw [hs] at hs2
  exact ⟨new2, hnew2, hs2⟩

theorem map_toLower_of_forall₂ (l1 l2 : List Char)
    (h : List.Forall₂ (fun x y => x.toLower = y.toLower) l1 l2) :
    l1.map Char.toLower = l2.map Char.toLower := by
  induction h with
  | nil => rfl
  | cons hxy _ ih => simp [hxy, ih]

theorem asciiLower_of_sameUpToCase (a b : String) (h : sameUpToCase a b) :
    asciiLower a = asciiLower b := by
  unfold asciiLower
  rw [map_toLower_of_forall₂ _ _ h]

theorem isGreeting_of_includes_hi (text word : String) (hword : "hi".toList <:+: word.toList)
    (h : includes text word = true) : ResponseHandler.isGreeting text = true := by
  rw [isGreeting_iff]
  exact ⟨"hi", by simp, hword.trans ((includes_iff text word).1 h)⟩

theorem classify_greeting_iff (text : String) :
    classify text = Category.greeting ↔ ResponseHandler.isGreeting text = true := by
  rw [isGreeting_iff]
  unfold classify
  constructor
  · intro h
    by_contra hn
    rw [if_neg hn] at h
    split_ifs at h
  · intro h
    rw [if_pos h]

/-- The texts sent by a run of `handleTextMessage` called on its class, whatever
the transport does. -/
theorem sends_handleTextMessage (B : Builtins) (logger : Logger) (ctx : Ctx) (tr new : List Event)
    (h : ((ResponseHandler.handleTextMessage B logger Receiver.responseHandler ctx).run tr).2
      = tr ++ new) :
    sends new = [categoryReply ctx (classify (B.toLowerCase ctx.text))] ∨
      sends new = [categoryReply ctx (classify (B.toLowerCase ctx.text)),
        ErrorHandler.genericMessage] := by
  obtain ⟨new2, h2, hs⟩ := (handleTextMessage_run_sends B logger ctx tr)
  rw [h2] at h
  rw [← List.append_cancel_left h]
  exact hs

/-! ## Free-text messages -/

/-- C1: called on its class, `handleTextMessage` hands to the chat the reply of
exactly one category, chosen from the lower-cased text in the order greeting,
thank-you, question, default, followed by the generic error message only when
that send failed; it is the only text when every send succeeds. The four replies
are the texts of the source, the default one carrying the text as received; they
differ from each other and from the generic error message. Texts with the same
lower-cased form, and so ASCII texts that differ only in letter case, fall in the
same category, and the five sample messages fall in the categories named.
The bot however registers the method without its class: run that way, the read
of `this.isGreeting` throws for every text, and what the bot hands to the chat is
the generic error message and no reply of a category, as for `Hello there`. -/
theorem handleTextMessage_registered_unbound (B : Builtins) (logger : Logger) (ctx : Ctx)
    (next : Async Unit) (tr : List Event) :
    (∃ new,
      ((ResponseHandler.handleTextMessage B logger Receiver.responseHandler ctx).run tr).2
        = tr ++ new ∧
      (sends new = [categoryReply ctx (classify (B.toLowerCase ctx.text))] ∨
        sends new = [categoryReply ctx (classify (B.toLowerCase ctx.text)),
          ErrorHandler.genericMessage])) ∧
    ((∀ t, ctx.transport t = none) →
      ∃ new, (ResponseHandler.handleTextMessage B logger Receiver.responseHandler ctx).run tr
          = (.ok (), tr ++ new) ∧
        sends new = [categoryReply ctx (classify (B.toLowerCase ctx.text))]) ∧
    (categoryReply ctx Category.greeting =
        "Hello " ++ ctx.sender.first_name ++
          "! 👋\n\nHow can I help you today? Use /help to see available commands." ∧
      categoryReply ctx Category.thankYou =
        "You\x27re welcome! 😊\n\nIs there anything else I can help you with?" ∧
      categoryReply ctx Category.question =
        "I\x27m here to help! 🤔\n\nYou can use commands like:\n• /quote - Get a random quote\n• /crypto bitcoin - Get crypto prices\n• /weather London - Get weather info\n\nOr use /help for more options!" ∧
      categoryReply ctx Category.fallback =
        "I received your message: \"" ++ ctx.text ++ "\"\n\n" ++
          "I can help you with various tasks. Use /help to see all available commands!") ∧
    (∀ c d, categoryReply ctx c = categoryReply ctx d → c = d) ∧
    (∀ c, categoryReply ctx c ≠ ErrorHandler.genericMessage) ∧
    (∀ other : Ctx, B.toLowerCase other.text = B.toLowerCase ctx.text →
      classify (B.toLowerCase other.text) = classify (B.toLowerCase ctx.text)) ∧
    (∀ a b : String, sameUpToCase a b → classify (asciiLower a) = classify (asciiLower b)) ∧
    (classify (asciiLower "Hello there") = Category.greeting ∧
      classify (asciiLower "thanks a lot") = Category.thankYou ∧
      classify (asciiLower "what time is it?") = Category.question ∧
      classify (asciiLower "random statement") = Category.fallback ∧
      classify (asciiLower "hi, what\x27s up?") = Category.greeting ∧
      sameUpToCase "HELLO THERE" "hello there") ∧
    (∃ new, ((Bot.onText B logger ctx next).run tr).2 = tr ++ new ∧
      (sends new = [ErrorHandler.genericMessage] ∨
        sends new = [ErrorHandler.genericMessage, ErrorHandler.genericMessage]) ∧
      ∀ c, categoryReply ctx c ∉ sends new) ∧
    (Bot.onText asciiBuiltins (Logger.create "info") (sampleCtx "Hello there") (pure ())).run [] =
      (.ok (), [Event.console "info" "Message from ann (7): hello there" [],
        Event.console "error"
          "Error occurred: Cannot read properties of undefined (reading \x27isGreeting\x27)" [],
        Event.reply "Sorry, something went wrong. Please try again later."]) := by
  refine ⟨handleTextMessage_run_sends B logger ctx tr, ?_, ⟨rfl, rfl, rfl, rfl⟩,
    categoryReply_injective ctx, categoryReply_ne_generic ctx, ?_, ?_,
    ⟨by decide, by decide, by decide, by decide, by decide, ?_⟩, ?_, rfl⟩
  · intro hok
    rw [run_handleTextMessage, hok]
    refine ⟨(if logger.emits "info" then [Event.console "info"
        ("Message from " ++ strOr (ctx.sender.username.getD "") ctx.sender.first_name ++
          " (" ++ toString ctx.sender.id ++ "): " ++ B.toLowerCase ctx.text) []] else []) ++
        [Event.reply (categoryReply ctx (classify (B.toLowerCase ctx.text)))], ?_, ?_⟩
    · simp only [List.append_assoc]
    · rw [sends_append, sends_info_line]; rfl
  · intro other h
    rw [h]
  · intro a b h
    rw [asciiLower_of_sameUpToCase a b h]
  · unfold sameUpToCase
    decide
  · obtain ⟨new, hnew, hs⟩ := onText_run_sends B logger ctx next tr
    refine ⟨new, hnew, hs, fun c hc => ?_⟩
    have hne := categoryReply_ne_generic ctx c
    rcases hs with hs | hs <;> rw [hs] at hc <;> simp [hne] at hc

/-- C1 at the message `Hello there` from Ann, with every send succeeding: called on
its class the handler sends the greeting reply and nothing else. -/
theorem handleTextMessage_registered_unbound_witness :
    ∃ new, (ResponseHandler.handleTextMessage asciiBuiltins (Logger.create "info")
        Receiver.responseHandler (sampleCtx "Hello there")).run [] = (.ok (), [] ++ new) ∧
      sends new = [categoryReply (sampleCtx "Hello there")
        (classify (asciiBuiltins.toLowerCase (sampleCtx "Hello there").text))] :=
  (handleTextMessage_registered_unbound asciiBuiltins (Logger.create "info")
    (sampleCtx "Hello there") (pure ()) []).2.1 (fun _ => rfl)

/-! ## Keywords that contain a greeting keyword -/

/-- C10: a lower-cased text that contains a word containing `hi`, such as `which`
or `this`, satisfies `isGreeting`; so `handleTextMessage`, called on its class,
answers it with the greeting reply and does not send the question reply, and
whenever it sends the question reply the lower-cased text does not contain
`which`. The bot however registers the method without its class: run that way it
answers such a text, as every text, with the generic error message, never with
the greeting reply and never with the question reply, as for `Which one`. -/
theorem which_is_a_greeting_keyword (B : Builtins) (logger : Logger) (ctx : Ctx)
    (next : Async Unit) (tr : List Event) :
    (∀ word : String, "hi".toList <:+: word.toList →
      includes (B.toLowerCase ctx.text) word = true →
        ResponseHandler.isGreeting (B.toLowerCase ctx.text) = true ∧
        ∃ new,
          ((ResponseHandler.handleTextMessage B logger Receiver.responseHandler ctx).run tr).2
            = tr ++ new ∧
          (sends new = [ResponseHandler.greetingReply ctx.sender.first_name] ∨
            sends new = [ResponseHandler.greetingReply ctx.sender.first_name,
              ErrorHandler.genericMessage]) ∧
          ResponseHandler.questionReply ∉ sends new) ∧
    "hi".toList <:+: "which".toList ∧
    "hi".toList <:+: "this".toList ∧
    (∀ new,
      ((ResponseHandler.handleTextMessage B logger Receiver.responseHandler ctx).run tr).2
        = tr ++ new →
      ResponseHandler.questionReply ∈ sends new →
        includes (B.toLowerCase ctx.text) "which" = false) ∧
    (∃ new, ((Bot.onText B logger ctx next).run tr).2 = tr ++ new ∧
      ResponseHandler.greetingReply ctx.sender.first_name ∉ sends new ∧
      ResponseHandler.questionReply ∉ sends new ∧
      ErrorHandler.genericMessage ∈ sends new) ∧
    (ResponseHandler.isGreeting (asciiLower "Which one") = true ∧
      sends ((Bot.onText asciiBuiltins (Logger.create "info") (sampleCtx "Which one")
        (pure ())).run []).2 = ["Sorry, something went wrong. Please try again later."]) := by
  have hqg : ResponseHandler.questionReply ≠ ErrorHandler.genericMessage :=
    categoryReply_ne_generic ctx Category.question
  have hgg : ResponseHandler.greetingReply ctx.sender.first_name ≠ ErrorHandler.genericMessage :=
    categoryReply_ne_generic ctx Category.greeting
  refine ⟨?_, by decide, by decide, ?_, ?_, by decide, rfl⟩
  · intro word hword h
    have hg := isGreeting_of_includes_hi _ word hword h
    have hc := (classify_greeting_iff _).2 hg
    refine ⟨hg, ?_⟩
    obtain ⟨new, hnew, hs⟩ := handleTextMessage_run_sends B logger ctx tr
    rw [hc] at hs
    have hne : ResponseHandler.questionReply ≠
        ResponseHandler.greetingReply ctx.sender.first_name := fun h =>
      Category.noConfusion (categoryReply_injective ctx Category.question Category.greeting h)
    refine ⟨new, hnew, hs, ?_⟩
    rcases hs with hs | hs <;> rw [hs] <;> simp [hne, hqg] <;> exact hne
  · intro new hnew hmem
    have hs := sends_handleTextMessage B logger ctx tr new hnew
    have hcat : categoryReply ctx (classify (B.toLowerCase ctx.text)) =
        categoryReply ctx Category.question := by
      rcases hs with hs | hs <;> rw [hs] at hmem <;> simp [hqg] at hmem <;> exact hmem.symm
    have hc := categoryReply_injective ctx _ _ hcat
    cases hw : includes (B.toLowerCase ctx.text) "which"
    · rfl
    · have hg := (classify_greeting_iff _).2
        (isGreeting_of_includes_hi _ "which" (by decide) hw)
      rw [hg] at hc
      exact Category.noConfusion hc
  · obtain ⟨new, hnew, hs⟩ := onText_run_sends B logger ctx next tr
    refine ⟨new, hnew, ?_, ?_, ?_⟩ <;>
      rcases hs with hs | hs <;> rw [hs] <;> simp [hqg, hgg]

/-- C10 at the message `Which one` from Ann: called on its class the handler sends
the greeting reply. -/
theorem which_is_a_greeting_keyword_witness :
    ResponseHandler.isGreeting (asciiBuiltins.toLowerCase (sampleCtx "Which one").text) = true ∧
    ∃ new, ((ResponseHandler.handleTextMessage asciiBuiltins (Logger.create "info")
        Receiver.responseHandler (sampleCtx "Which one")).run []).2 = [] ++ new ∧
      (sends new = [ResponseHandler.greetingReply (sampleCtx "Which one").sender.first_name] ∨
        sends new = [ResponseHandler.greetingReply (sampleCtx "Which one").sender.first_name,
          ErrorHandler.genericMessage]) ∧
      ResponseHandler.questionReply ∉ sends new :=
  (which_is_a_greeting_keyword asciiBuiltins (Logger.create "info") (sampleCtx "Which one")
    (pure ()) []).1 "which" (by decide) (by decide)

/-! ## `validateApiResponse` -/

theorem get_of_truthy (v : JsValue) (key : String) (h : v.truthy = true) :
    ∃ data, v.get key = .ok data := by
  cases v with
  | undefined => simp [JsValue.truthy] at h
  | null => simp [JsValue.truthy] at h
  | array items =>
    simp only [JsValue.get]
    split
    · exact ⟨_, rfl⟩
    · split
      · split <;> exact ⟨_, rfl⟩
      · exact ⟨_, rfl⟩
  | _ => exact ⟨_, rfl⟩

/-- C8, as stated, fails: a response whose body is present and is the empty
string, the number zero or `false` is rejected with `Invalid API response`. -/
theorem validateApiResponse_rejects_present_body :
    ErrorHandler.validateApiResponse (.object [("data", .string "")]) =
      .error (JsError.new "Invalid API response") ∧
    (JsValue.object [("data", .string "")]).absent = false ∧
    (JsValue.object [("data", .string "")]).get "data" = .ok (.string "") ∧
    (JsValue.string "").absent = false ∧
    ErrorHandler.validateApiResponse (.object [("data", .bool false)]) =
      .error (JsError.new "Invalid API response") ∧
    (JsValue.bool false).absent = false :=
  ⟨rfl, rfl, rfl, rfl, rfl, rfl⟩

/-- C8, amended: `validateApiResponse` fails with `Invalid API response` exactly
when the response is falsy or its body is falsy (absent, `null`, `false`, zero,
`NaN` or the empty string); it raises no other error; and for every response
with a truthy body it returns that body unchanged. -/
theorem validateApiResponse_falsy (response : JsValue) :
    (ErrorHandler.validateApiResponse response = .error (JsError.new "Invalid API response") ↔
      (response.truthy = false ∨
        ∃ data, response.get "data" = .ok data ∧ data.truthy = false)) ∧
    (∀ data, response.truthy = true → response.get "data" = .ok data → data.truthy = true →
      ErrorHandler.validateApiResponse response = .ok data) ∧
    (ErrorHandler.validateApiResponse response = .error (JsError.new "Invalid API response") ∨
      ∃ data, response.get "data" = .ok data ∧ data.truthy = true ∧
        ErrorHandler.validateApiResponse response = .ok data) := by
  cases hr : response.truthy
  · have hv : ErrorHandler.validateApiResponse response =
        .error (JsError.new "Invalid API response") := by
      simp [ErrorHandler.validateApiResponse, hr]
    exact ⟨⟨fun _ => Or.inl rfl, fun _ => hv⟩, fun _ h => by simp at h, Or.inl hv⟩
  · obtain ⟨data, hd⟩ := get_of_truthy response "data" hr
    cases ht : data.truthy
    · have hv : ErrorHandler.validateApiResponse response =
          .error (JsError.new "Invalid API response") := by
        simp [ErrorHandler.validateApiResponse, hr, hd, ht]
      refine ⟨⟨fun _ => Or.inr ⟨data, hd, ht⟩, fun _ => hv⟩, fun d _ hd2 hdt => ?_, Or.inl hv⟩
      rw [hd] at hd2; cases hd2; rw [ht] at hdt; cases hdt
    · have hv : ErrorHandler.validateApiResponse response = .ok data := by
        simp [ErrorHandler.validateApiResponse, hr, hd, ht]
      refine ⟨⟨fun h => ?_, fun h => ?_⟩, fun d _ hd2 _ => ?_, Or.inr ⟨data, hd, ht, hv⟩⟩
      · rw [hv] at h; cases h
      · rcases h with h | ⟨d, hd2, hdt⟩
        · cases h
        · rw [hd] at hd2; cases hd2; rw [ht] at hdt; cases hdt
      · rw [hd] at hd2; cases hd2; exact hv

/-- C8, amended, at a response whose body is an object: the body is returned. -/
theorem validateApiResponse_falsy_witness :
    ErrorHandler.validateApiResponse
        (.object [("status", .number 200), ("data", .object [("ok", .bool true)])]) =
      .ok (.object [("ok", .bool true)]) :=
  (validateApiResponse_falsy
    (.object [("status", .number 200), ("data", .object [("ok", .bool true)])])).2.1
    (.object [("ok", .bool true)]) rfl rfl rfl

/-! ## The logger threshold -/

/-- C5: a logger constructed with `warn`, `info` or `debug` emits a call exactly
when the rank of its level is at most the rank of the threshold, and in
particular at `warn` it emits `warn` and `error` and suppresses `info` and
`debug`. A logger constructed with `error` does not: the constructor reads rank
0 as a missing level and falls back to the rank of `info`, so that logger also
emits `warn` and `info` calls, whose ranks exceed the rank of `error`. -/
theorem logger_error_threshold_falls_back_to_info :
    (∀ T ∈ ["warn", "info", "debug"], ∀ L ∈ ["error", "warn", "info", "debug"],
      ((Logger.create T).emits L = true ↔ rank L ≤ rank T)) ∧
    ((Logger.create "warn").emits "error" = true ∧ (Logger.create "warn").emits "warn" = true ∧
      (Logger.create "warn").emits "info" = false ∧
      (Logger.create "warn").emits "debug" = false) ∧
    (Logger.create "error").currentLevel = 2 ∧
    (Logger.create "error").emits "warn" = true ∧
    (Logger.create "error").emits "info" = true ∧
    ¬ rank "warn" ≤ rank "error" ∧
    ¬ rank "info" ≤ rank "error" ∧
    ((Logger.create "error").info "started" []).run [] =
      (.ok (), [Event.console "info" "started" []]) := by
  refine ⟨by decide, by decide, by decide, by decide, by decide, by decide, by decide, rfl⟩

/-! ## `getWeatherData` -/

@[simp] theorem run_axiosGet (net : Net) (url : String) (tr : List Event) :
    (axiosGet net url).run tr =
      (liftResult (net (tr ++ [Event.httpGet url])), tr ++ [Event.httpGet url]) := rfl

@[simp] theorem run_prop (v : JsValue) (key : String) (tr : List Event) :
    (prop v key).run tr = (liftResult (v.get key), tr) := rfl

@[simp] theorem run_first (v : JsValue) (tr : List Event) :
    (first v).run tr = (liftResult (v.index 0), tr) := rfl

@[simp] theorem liftResult_eq_ok {α : Type} (x : Except JsError α) (a : α) :
    liftResult x = .ok a ↔ x = .ok a := by
  cases x <;> simp [liftResult]

@[simp] theorem caughtIsNetworkError_error (e : JsError) :
    caughtIsNetworkError (Thrown.error e) = .ok (isNetworkError e) := rfl

@[simp] theorem caughtMessage_error (e : JsError) :
    caughtMessage (Thrown.error e) = e.message := rfl

theorem run_bind_ok {α β : Type} (m : Async α) (f : α → Async β) (tr tr2 : List Event) (b : β) :
    (m >>= f).run tr = (.ok b, tr2) ↔
      ∃ a tr1, m.run tr = (.ok a, tr1) ∧ (f a).run tr1 = (.ok b, tr2) := by
  rw [run_bind]
  rcases h : m.run tr with ⟨e | a, tr1⟩
  · simp
  · constructor
    · intro h2
      exact ⟨a, tr1, rfl, h2⟩
    · rintro ⟨a2, tr3, h3, h2⟩
      cases h3
      exact h2

theorem run_tryCatch_ok {α : Type} (body : Async α) (handler : Thrown → Async α)
    (hthrows : ∀ e tr a tr1, (handler e).run tr ≠ (.ok a, tr1)) (tr tr1 : List Event) (a : α) :
    (tryCatch body handler).run tr = (.ok a, tr1) ↔ body.run tr = (.ok a, tr1) := by
  rw [run_tryCatch]
  rcases h : body.run tr with ⟨e | b, tr2⟩
  · simp [hthrows]
  · simp

theorem quote_catch_throws (logger : Logger) (e : Thrown) (tr : List Event) (a : JsValue)
    (tr1 : List Event) :
    (do
      let network ← Async.ofExcept (caughtIsNetworkError e)
      if network then do
        logger.error "Network error fetching quote" []
        throw (Thrown.error (JsError.new "Network error: Unable to connect to quote service"))
      else do
        logger.error "Failed to fetch quote:" [caughtMessage e]
        throw (Thrown.error (JsError.new "Unable to fetch quote. Please try again later.")) : Async JsValue).run tr
      ≠ (.ok a, tr1) := by
  cases e <;> simp [caughtIsNetworkError] <;> split <;> simp

theorem getRandomQuote_ok (logger : Logger) (net : Net) (tr tr1 : List Event) (v : JsValue)
    (h : (ApiService.getRandomQuote logger net).run tr = (.ok v, tr1)) :
    ∃ response, net (tr ++ [Event.httpGet "https://api.quotable.io/random"]) = .ok response ∧
      response.get "data" = .ok v ∧ v.truthy = true ∧
      ∃ content, v.get "content" = .ok content ∧ content.truthy = true := by
  unfold ApiService.getRandomQuote at h
  rw [run_tryCatch_ok _ _ (quote_catch_throws logger)] at h
  simp only [run_bind_ok, run_axiosGet, run_prop, Prod.mk.injEq, liftResult_eq_ok] at h
  obtain ⟨response, _, ⟨hnet, rfl⟩, data, _, ⟨hdata, rfl⟩, h⟩ := h
  cases hd : data.truthy
  · simp [hd] at h
  · simp only [hd, Bool.not_true, Bool.false_eq_true, if_false, run_bind_ok, run_pure,
      run_prop, Prod.mk.injEq, liftResult_eq_ok] at h
    obtain ⟨_, _, _, content, _, ⟨hcontent, rfl⟩, h⟩ := h
    cases hc : content.truthy
    · simp [hc] at h
    · simp only [hc, Bool.not_true, Bool.false_eq_true, if_false, run_bind_ok, run_pure,
        Prod.mk.injEq, liftResult_eq_ok] at h
      obtain ⟨_, _, _, hv, _⟩ := h
      cases hv
      exact ⟨response, hnet, hdata, hd, content, hcontent, hc⟩

theorem crypto_catch_throws (logger : Logger) (symbol : String) (e : Thrown) (tr : List Event)
    (a : JsValue) (tr1 : List Event) :
    (do
      let network ← Async.ofExcept (caughtIsNetworkError e)
      if network then do
        logger.error ("Network error fetching crypto price for " ++ symbol) []
        throw (Thrown.error (JsError.new "Network error: Unable to connect to cryptocurrency service"))
      else do
        logger.error ("Failed to fetch crypto price for " ++ symbol ++ ":") [caughtMessage e]
        throw (Thrown.error (ApiService.cryptoFailure symbol)) : Async JsValue).run tr
      ≠ (.ok a, tr1) := by
  cases e <;> simp [caughtIsNetworkError] <;> split <;> simp

theorem getCryptoPrice_ok (B : Builtins) (logger : Logger) (net : Net) (symbol : String)
    (tr tr1 : List Event) (v : JsValue)
    (h : (ApiService.getCryptoPrice B logger net symbol).run tr = (.ok v, tr1)) :
    ∃ response, net (tr ++ [Event.httpGet (ApiService.cryptoUrl B symbol)]) = .ok response ∧
      response.get "data" = .ok v ∧ v.truthy = true ∧ v.keysLength ≠ 0 := by
  unfold ApiService.getCryptoPrice at h
  rw [run_tryCatch_ok _ _ (crypto_catch_throws logger symbol)] at h
  simp only [run_bind_ok, run_axiosGet, run_prop, Prod.mk.injEq, liftResult_eq_ok] at h
  obtain ⟨response, _, ⟨hnet, rfl⟩, data, _, ⟨hdata, rfl⟩, h⟩ := h
  cases hd : data.truthy
  · simp [hd] at h
  · by_cases hk : data.keysLength = 0
    · simp [hd, hk] at h
    · simp only [hd, hk, Bool.not_true, Bool.false_eq_true, if_false, run_bind_ok, run_pure,
        Prod.mk.injEq, liftResult_eq_ok] at h
      obtain ⟨_, _, _, _, _, _, hv, _⟩ := h
      cases hv
      exact ⟨response, hnet, hdata, hd, hk⟩

theorem weather_catch_throws (logger : Logger) (city : String) (e : Thrown) (tr : List Event)
    (a : WeatherResult) (tr1 : List Event) :
    (do
      let network ← Async.ofExcept (caughtIsNetworkError e)
      if network then do
        logger.error ("Network error fetching weather for " ++ city) []
        throw (Thrown.error (JsError.new "Network error: Unable to connect to weather service"))
      else do
        logger.error ("Failed to fetch weather for " ++ city ++ ":") [caughtMessage e]
        throw (Thrown.error (ApiService.weatherFailure city)) : Async WeatherResult).run tr
      ≠ (.ok a, tr1) := by
  cases e <;> simp [caughtIsNetworkError] <;> split <;> simp

theorem getWeatherData_ok (B : Builtins) (logger : Logger) (net : Net) (city : String)
    (tr tr1 : List Event) (w : WeatherResult)
    (h : (ApiService.getWeatherData B logger net city).run tr = (.ok w, tr1)) :
    ∃ response data current_condition,
      net (tr ++ [Event.httpGet (ApiService.weatherUrl B city)]) = .ok response ∧
      response.get "data" = .ok data ∧ data.truthy = true ∧
      data.get "current_condition" = .ok current_condition ∧ current_condition.truthy = true ∧
      readPath [.key "nearest_area", .idx 0, .key "areaName", .idx 0, .key "value"] data
        = .ok w.location ∧
      readPath [.key "nearest_area", .idx 0, .key "country", .idx 0, .key "value"] data
        = .ok w.country ∧
      readPath [.key "current_condition", .idx 0, .key "temp_C"] data = .ok w.temp ∧
      readPath [.key "current_condition", .idx 0, .key "FeelsLikeC"] data = .ok w.feelsLike ∧
      readPath [.key "current_condition", .idx 0, .key "weatherDesc", .idx 0, .key "value"] data
        = .ok w.description ∧
      readPath [.key "current_condition", .idx 0, .key "humidity"] data = .ok w.humidity ∧
      readPath [.key "current_condition", .idx 0, .key "windspeedKmph"] data
        = .ok w.windSpeed := by
  unfold ApiService.getWeatherData at h
  rw [run_tryCatch_ok _ _ (weather_catch_throws logger city)] at h
  simp only [run_bind_ok, run_axiosGet, run_prop, Prod.mk.injEq, liftResult_eq_ok] at h
  obtain ⟨response, _, ⟨hnet, rfl⟩, data, _, ⟨hdata, rfl⟩, h⟩ := h
  cases hd : data.truthy
  · simp [hd] at h
  · simp only [hd, Bool.not_true, Bool.false_eq_true, if_false, run_bind_ok, run_pure,
      run_prop, Prod.mk.injEq, liftResult_eq_ok] at h
    obtain ⟨_, _, _, cc, _, ⟨hcc, rfl⟩, h⟩ := h
    cases hc : cc.truthy
    · simp [hc] at h
    · simp only [hc, Bool.not_true, Bool.false_eq_true, if_false, run_bind_ok, run_pure,
        run_prop, run_first, Prod.mk.injEq, liftResult_eq_ok] at h
      obtain ⟨_, _, _, current, _, ⟨h1, rfl⟩, na, _, ⟨h2, rfl⟩, location, _, ⟨h3, rfl⟩,
        areaName, _, ⟨h4, rfl⟩, areaName0, _, ⟨h5, rfl⟩, locationValue, _, ⟨h6, rfl⟩,
        country, _, ⟨h7, rfl⟩, country0, _, ⟨h8, rfl⟩, countryValue, _, ⟨h9, rfl⟩,
        temp, _, ⟨h10, rfl⟩, feelsLike, _, ⟨h11, rfl⟩, weatherDesc, _, ⟨h12, rfl⟩,
        weatherDesc0, _, ⟨h13, rfl⟩, description, _, ⟨h14, rfl⟩, humidity, _, ⟨h15, rfl⟩,
        windSpeed, _, ⟨h16, rfl⟩, hw, _⟩ := h
      cases hw
      refine ⟨response, data, cc, hnet, hdata, hd, hcc, hc, ?_, ?_, ?_, ?_, ?_, ?_, ?_⟩ <;>
        simp [readPath, hcc, h1, h2, h3, h4, h5, h6, h7, h8, h9, h10, h11, h12, h13, h14, h15,
          h16]

/-- The failure of `getWeatherData` on a payload without a usable current-conditions section. -/
theorem getWeatherData_lacking (B : Builtins) (logger : Logger) (net : Net) (city : String)
    (tr : List Event) (response data : JsValue)
    (hnet : net (tr ++ [Event.httpGet (ApiService.weatherUrl B city)]) = .ok response)
    (hdata : response.get "data" = .ok data)
    (hlack : data.truthy = false ∨ ∃ cc, data.get "current_condition" = .ok cc ∧
      cc.truthy = false) :
    (ApiService.getWeatherData B logger net city).run tr =
      (.error (ApiService.weatherFailure city),
        tr ++ [Event.httpGet (ApiService.weatherUrl B city),
          Event.console "error" ("Failed to fetch weather for " ++ city ++ ":")
            ["Invalid weather data received"]]) := by
  simp only [ApiService.getWeatherData, run_tryCatch, run_bind, run_axiosGet, hnet, liftResult_ok, run_prop, hdata]
  rcases hlack with h | ⟨sec, hsec, h⟩
  · simp [h, isNetworkError, JsError.new]
  · cases hd : data.truthy
    · simp [isNetworkError, JsError.new]
    · simp [hsec, h, isNetworkError, JsError.new]

/-- The failure of `getWeatherData` when the request is rejected with an error
that is not a connection error. -/
theorem getWeatherData_rejected (B : Builtins) (logger : Logger) (net : Net) (city : String)
    (tr : List Event) (e : JsError)
    (hnet : net (tr ++ [Event.httpGet (ApiService.weatherUrl B city)]) = .error e)
    (he : isNetworkError e = false) :
    (ApiService.getWeatherData B logger net city).run tr =
      (.error (ApiService.weatherFailure city),
        tr ++ [Event.httpGet (ApiService.weatherUrl B city),
          Event.console "error" ("Failed to fetch weather for " ++ city ++ ":") [e.message]]) := by
  simp [ApiService.getWeatherData, hnet, he]

/-- C3, as stated, fails: on a payload without the current-conditions section the
error `getWeatherData` raises is not the `Invalid weather data received` error but
the error it raises for a rejected request, here one answered with status 500. -/
theorem getWeatherData_lacking_raises_fetch_failure :
    ((ApiService.getWeatherData asciiBuiltins (Logger.create "info")
        (answering (.object [("nearest_area", .array [])])) "London").run []).1 =
      .error (ApiService.weatherFailure "London") ∧
    ApiService.weatherFailure "London" ≠ JsError.new "Invalid weather data received" ∧
    ((ApiService.getWeatherData asciiBuiltins (Logger.create "info")
        (rejecting serverError) "London").run []).1 =
      .error (ApiService.weatherFailure "London") :=
  ⟨rfl, by decide, rfl⟩

/-- C3, amended: for every city and every provider response whose payload is
missing or has no (truthy) current-conditions section, `getWeatherData` fails and
returns no result. The error it raises is `Unable to fetch weather data for
<city>. Please check the city name and try again.`, the same error it raises when
the request is rejected with anything but a connection error; the text `Invalid
weather data received` only appears in the line written to the log. -/
theorem getWeatherData_lacking_fails (B : Builtins) (logger : Logger) (net : Net)
    (city : String) (tr : List Event) :
    (∀ response data,
      net (tr ++ [Event.httpGet (ApiService.weatherUrl B city)]) = .ok response →
      response.get "data" = .ok data →
      (data.truthy = false ∨ ∃ cc, data.get "current_condition" = .ok cc ∧ cc.truthy = false) →
      (ApiService.getWeatherData B logger net city).run tr =
        (.error (ApiService.weatherFailure city),
          tr ++ [Event.httpGet (ApiService.weatherUrl B city),
            Event.console "error" ("Failed to fetch weather for " ++ city ++ ":")
              ["Invalid weather data received"]])) ∧
    (∀ e, net (tr ++ [Event.httpGet (ApiService.weatherUrl B city)]) = .error e →
      isNetworkError e = false →
      ((ApiService.getWeatherData B logger net city).run tr).1 =
        .error (ApiService.weatherFailure city)) ∧
    ApiService.weatherFailure city =
      JsError.new ("Unable to fetch weather data for " ++ city ++
        ". Please check the city name and try again.") :=
  ⟨fun response data hnet hdata hlack =>
      getWeatherData_lacking B logger net city tr response data hnet hdata hlack,
    fun e hnet he => by rw [getWeatherData_rejected B logger net city tr e hnet he],
    rfl⟩

/-- C3, amended, at a payload that only has the nearest-area section. -/
theorem getWeatherData_lacking_fails_witness :
    (ApiService.getWeatherData asciiBuiltins (Logger.create "info")
        (answering (.object [("nearest_area", .array [])])) "London").run [] =
      (.error (ApiService.weatherFailure "London"),
        [] ++ [Event.httpGet (ApiService.weatherUrl asciiBuiltins "London"),
          Event.console "error" ("Failed to fetch weather for " ++ "London" ++ ":")
            ["Invalid weather data received"]]) :=
  (getWeatherData_lacking_fails asciiBuiltins (Logger.create "info")
    (answering (.object [("nearest_area", .array [])])) "London" []).1
    _ (.object [("nearest_area", .array [])]) rfl rfl (Or.inr ⟨.undefined, rfl, rfl⟩)

/-! ## What a returned result guarantees -/

/-- C7, as stated, fails: `getRandomQuote` returns a body that has a content but
no author, and `getWeatherData` returns a record whose temperature, feels-like,
humidity and wind fields are `undefined`. -/
theorem adapters_return_partial_results :
    (ApiService.getRandomQuote (Logger.create "info")
        (answering (.object [("content", .string "Stay curious.")]))).run [] =
      (.ok (.object [("content", .string "Stay curious.")]),
        [Event.httpGet "https://api.quotable.io/random"]) ∧
    (JsValue.object [("content", .string "Stay curious.")]).get "author" = .ok .undefined ∧
    ((ApiService.getWeatherData asciiBuiltins (Logger.create "info")
        (answering sparseWeather) "London").run []).1 =
      .ok { location := .string "London", country := .string "United Kingdom",
            temp := .undefined, feelsLike := .undefined, description := .string "Sunny",
            humidity := .undefined, windSpeed := .undefined } :=
  ⟨rfl, rfl, rfl⟩

/-- C7, amended: each adapter either fails with an error or returns a result, and
a returned result is what the provider sent, checked only as follows.
`getRandomQuote` returns the body, which has a truthy content (its author is not
checked). `getCryptoPrice` returns the body, which is truthy and has at least one
key. `getWeatherData` returns a record only when the body has a truthy
current-conditions section, and its seven fields are the values read at the
seven paths of the body, none of which is checked for being present. -/
theorem adapters_return_checked_results (B : Builtins) (logger : Logger) (net : Net)
    (city symbol : String) (tr : List Event) :
    (∀ v tr1, (ApiService.getRandomQuote logger net).run tr = (.ok v, tr1) →
      ∃ response, net (tr ++ [Event.httpGet "https://api.quotable.io/random"]) = .ok response ∧
        response.get "data" = .ok v ∧ v.truthy = true ∧
        ∃ content, v.get "content" = .ok content ∧ content.truthy = true) ∧
    (∀ v tr1, (ApiService.getCryptoPrice B logger net symbol).run tr = (.ok v, tr1) →
      ∃ response, net (tr ++ [Event.httpGet (ApiService.cryptoUrl B symbol)]) = .ok response ∧
        response.get "data" = .ok v ∧ v.truthy = true ∧ v.keysLength ≠ 0) ∧
    (∀ w tr1, (ApiService.getWeatherData B logger net city).run tr = (.ok w, tr1) →
      ∃ response data current_condition,
        net (tr ++ [Event.httpGet (ApiService.weatherUrl B city)]) = .ok response ∧
        response.get "data" = .ok data ∧ data.truthy = true ∧
        data.get "current_condition" = .ok current_condition ∧
        current_condition.truthy = true ∧
        readPath [.key "nearest_area", .idx 0, .key "areaName", .idx 0, .key "value"] data
          = .ok w.location ∧
        readPath [.key "nearest_area", .idx 0, .key "country", .idx 0, .key "value"] data
          = .ok w.country ∧
        readPath [.key "current_condition", .idx 0, .key "temp_C"] data = .ok w.temp ∧
        readPath [.key "current_condition", .idx 0, .key "FeelsLikeC"] data = .ok w.feelsLike ∧
        readPath [.key "current_condition", .idx 0, .key "weatherDesc", .idx 0, .key "value"]
          data = .ok w.description ∧
        readPath [.key "current_condition", .idx 0, .key "humidity"] data = .ok w.humidity ∧
        readPath [.key "current_condition", .idx 0, .key "windspeedKmph"] data
          = .ok w.windSpeed) :=
  ⟨fun v tr1 h => getRandomQuote_ok logger net tr tr1 v h,
    fun v tr1 h => getCryptoPrice_ok B logger net symbol tr tr1 v h,
    fun w tr1 h => getWeatherData_ok B logger net city tr tr1 w h⟩

/-- C7, amended, at a quote body with both entries. -/
theorem adapters_return_checked_results_witness :
    ∃ response,
      answering (.object [("author", .string "Ada"), ("content", .string "Stay curious.")])
        ([] ++ [Event.httpGet "https://api.quotable.io/random"]) = .ok response ∧
      response.get "data" =
        .ok (.object [("author", .string "Ada"), ("content", .string "Stay curious.")]) ∧
      (JsValue.object [("author", .string "Ada"), ("content", .string "Stay curious.")]).truthy
        = true ∧
      ∃ content,
        (JsValue.object [("author", .string "Ada"), ("content", .string "Stay curious.")]).get
          "content" = .ok content ∧ content.truthy = true :=
  (adapters_return_checked_results asciiBuiltins (Logger.create "info")
    (answering (.object [("author", .string "Ada"), ("content", .string "Stay curious.")]))
    "London" "bitcoin" []).1 _ _ rfl

/-! ## Command handlers when the service call fails -/

theorem run_tryCatch_error {α : Type} (body : Async α) (handler : Thrown → Async α)
    (tr tr1 : List Event) (e : Thrown) (h : (tryCatch body handler).run tr = (.error e, tr1)) :
    ∃ e0 tr0, body.run tr = (.error e0, tr0) ∧ (handler e0).run tr0 = (.error e, tr1) := by
  rw [run_tryCatch] at h
  rcases hb : body.run tr with ⟨e0 | b, tr0⟩
  · rw [hb] at h
    exact ⟨e0, tr0, rfl, h⟩
  · rw [hb] at h
    simp at h

theorem throwsValues_pure {α : Type} (a : α) : ThrowsValues (pure a : Async α) :=
  ⟨fun tr t tr1 h => by simp at h⟩

theorem throwsValues_throw {α : Type} (e : JsError) :
    ThrowsValues (throw (Thrown.error e) : Async α) :=
  ⟨fun tr t tr1 h => by
    simp only [run_throw, Prod.mk.injEq, Except.error.injEq] at h
    rw [← h.1]; rfl⟩

theorem throwsValues_ofExcept {α : Type} (x : Except JsError α) :
    ThrowsValues (Async.ofExcept x) :=
  ⟨fun tr t tr1 h => by
    cases x with
    | ok a => simp at h
    | error e =>
      simp only [run_ofExcept, liftResult_error, Prod.mk.injEq, Except.error.injEq] at h
      rw [← h.1]; rfl⟩

theorem throwsValues_prop (v : JsValue) (key : String) : ThrowsValues (prop v key) :=
  throwsValues_ofExcept _

theorem throwsValues_first (v : JsValue) : ThrowsValues (first v) :=
  throwsValues_ofExcept _

theorem throwsValues_axiosGet (net : Net) (url : String) : ThrowsValues (axiosGet net url) :=
  ⟨fun tr t tr1 h => by
    rw [run_axiosGet] at h
    cases hn : net (tr ++ [Event.httpGet url]) with
    | ok a => rw [hn] at h; simp at h
    | error e =>
      rw [hn] at h
      simp only [liftResult_error, Prod.mk.injEq, Except.error.injEq] at h
      rw [← h.1]; rfl⟩

theorem throwsValues_log (logger : Logger) (level message : String) (args : List String) :
    ThrowsValues (logger.log level message args) :=
  ⟨fun tr t tr1 h => by
    change logger.log level message args tr = _ at h
    unfold Logger.log at h
    split at h <;> simp at h⟩

theorem throwsValues_error (logger : Logger) (message : String) (args : List String) :
    ThrowsValues (logger.error message args) := throwsValues_log logger _ _ _

theorem throwsValues_info (logger : Logger) (message : String) (args : List String) :
    ThrowsValues (logger.info message args) := throwsValues_log logger _ _ _

theorem throwsValues_reply (ctx : Ctx) (hv : ctx.rejectsWithValues) (text : String) :
    ThrowsValues (ctx.reply text) :=
  ⟨fun tr t tr1 h => by
    rw [run_reply] at h
    cases ht : ctx.transport (tr ++ [Event.reply text]) with
    | none => rw [ht] at h; simp at h
    | some thrown =>
      rw [ht] at h
      simp only [Prod.mk.injEq, Except.error.injEq] at h
      rw [← h.1]
      exact hv _ _ ht⟩

theorem throwsValues_replyWithMarkdown (ctx : Ctx) (hv : ctx.rejectsWithValues) (text : String) :
    ThrowsValues (ctx.replyWithMarkdown text) :=
  ⟨fun tr t tr1 h => by
    change ctx.replyWithMarkdown text tr = _ at h
    unfold Ctx.replyWithMarkdown at h
    cases ht : ctx.transport (tr ++ [Event.replyWithMarkdown text]) with
    | none => rw [ht] at h; simp at h
    | some thrown =>
      rw [ht] at h
      simp only [Prod.mk.injEq, Except.error.injEq] at h
      rw [← h.1]
      exact hv _ _ ht⟩

theorem throwsValues_bind {α β : Type} (m : Async α) (f : α → Async β) (hm : ThrowsValues m)
    (hf : ∀ a, ThrowsValues (f a)) : ThrowsValues (m >>= f) :=
  ⟨fun tr t tr1 h => by
    rw [run_bind] at h
    rcases hr : m.run tr with ⟨e | a, tr2⟩
    · rw [hr] at h
      simp only [Prod.mk.injEq, Except.error.injEq] at h
      rw [← h.1]
      exact hm.thrown _ _ _ hr
    · rw [hr] at h
      exact (hf a).thrown _ _ _ h⟩

theorem throwsValues_tryCatch {α : Type} (body : Async α) (handler : Thrown → Async α)
    (hh : ∀ e, ThrowsValues (handler e)) : ThrowsValues (tryCatch body handler) :=
  ⟨fun tr t tr1 h => by
    obtain ⟨e0, tr0, _, h2⟩ := run_tryCatch_error _ _ _ _ _ h
    exact (hh e0).thrown _ _ _ h2⟩

theorem throwsValues_ite {α : Type} (c : Prop) [Decidable c] (a b : Async α)
    (ha : ThrowsValues a) (hb : ThrowsValues b) : ThrowsValues (if c then a else b) := by
  split
  · exact ha
  · exact hb

theorem throwsValues_getRandomQuote (logger : Logger) (net : Net) :
    ThrowsValues (ApiService.getRandomQuote logger net) := by
  unfold ApiService.getRandomQuote
  apply throwsValues_tryCatch
  repeat' first
    | intro _
    | apply throwsValues_bind
    | apply throwsValues_ite
    | apply throwsValues_throw
    | apply throwsValues_ofExcept
    | apply throwsValues_error

theorem throwsValues_getCryptoPrice (B : Builtins) (logger : Logger) (net : Net)
    (symbol : String) : ThrowsValues (ApiService.getCryptoPrice B logger net symbol) := by
  unfold ApiService.getCryptoPrice
  apply throwsValues_tryCatch
  repeat' first
    | intro _
    | apply throwsValues_bind
    | apply throwsValues_ite
    | apply throwsValues_throw
    | apply throwsValues_ofExcept
    | apply throwsValues_error

theorem throwsValues_getWeatherData (B : Builtins) (logger : Logger) (net : Net)
    (city : String) : ThrowsValues (ApiService.getWeatherData B logger net city) := by
  unfold ApiService.getWeatherData
  apply throwsValues_tryCatch
  repeat' first
    | intro _
    | apply throwsValues_bind
    | apply throwsValues_ite
    | apply throwsValues_throw
    | apply throwsValues_ofExcept
    | apply throwsValues_error

/-- The two errors `getWeatherData` can raise. -/
theorem getWeatherData_error (B : Builtins) (logger : Logger) (net : Net) (city : String)
    (tr tr1 : List Event) (e : Thrown)
    (h : (ApiService.getWeatherData B logger net city).run tr = (.error e, tr1)) :
    e = Thrown.error (JsError.new "Network error: Unable to connect to weather service") ∨
      e = Thrown.error (ApiService.weatherFailure city) := by
  unfold ApiService.getWeatherData at h
  obtain ⟨e0, tr0, hb, h2⟩ := run_tryCatch_error _ _ tr tr1 e h
  have hv : e0.nullish = false := by
    refine ThrowsValues.thrown ?_ _ _ _ hb
    repeat' first
      | intro _
      | apply throwsValues_bind
      | apply throwsValues_ite
      | apply throwsValues_pure
      | apply throwsValues_throw
      | apply throwsValues_prop
      | apply throwsValues_first
      | apply throwsValues_axiosGet
  cases e0 with
  | undefined => simp [Thrown.nullish] at hv
  | null => simp [Thrown.nullish] at hv
  | str s =>
    simp [caughtIsNetworkError] at h2
    exact Or.inr h2.1.symm
  | error e1 =>
    by_cases hn : isNetworkError e1 = true
    · simp [hn] at h2
      exact Or.inl h2.1.symm
    · simp [hn] at h2
      exact Or.inr h2.1.symm

theorem weatherFailure_message_ne (city : String) : (ApiService.weatherFailure city).message ≠ "" := by
  intro h
  have := congrArg String.length h
  simp only [ApiService.weatherFailure, JsError.new, String.length_append] at this
  have h2 : ". Please check the city name and try again.".length = 43 := by decide
  have h3 : "".length = 0 := rfl
  omega

theorem userMessage_some (m : String) (h : m ≠ "") : ErrorHandler.userMessage (some m) = m := by
  simp [ErrorHandler.userMessage, strOr, strTruthy, h]

/-- A handler whose `catch` calls `handleError` with a fixed message completes as
long as no send is rejected with `undefined` or `null`. -/
theorem tryCatch_handleError_ok (logger : Logger) (ctx : Ctx) (hv : ctx.rejectsWithValues)
    (body : Async Unit) (custom : Option String) (tr : List Event) :
    ((tryCatch body (fun error => ErrorHandler.handleError logger ctx error custom)).run
      tr).1 = .ok () := by
  rw [run_tryCatch]
  rcases h : body.run tr with ⟨e | u, tr1⟩
  · exact handleError_ok logger ctx hv e custom tr1
  · cases u; rfl

theorem weatherCustomMessage_of_values (thrown : Thrown) (h : thrown.nullish = false) :
    ∃ text, CommandsHandler.weatherCustomMessage thrown = .ok text := by
  cases thrown with
  | undefined => simp [Thrown.nullish] at h
  | null => simp [Thrown.nullish] at h
  | str s => exact ⟨_, rfl⟩
  | error e => exact ⟨_, rfl⟩

/-- The `weather` handler completes as long as no send is rejected with
`undefined` or `null`. -/
theorem weather_ok (B : Builtins) (logger : Logger) (net : Net) (ctx : Ctx)
    (hv : ctx.rejectsWithValues) (tr : List Event) :
    ((CommandsHandler.weather B logger net ctx).run tr).1 = .ok () := by
  unfold CommandsHandler.weather
  rw [run_tryCatch]
  generalize hbody : (do
    let city := CommandsHandler.weatherCity ctx.text
    ctx.reply ("🌤️ Fetching weather for " ++ city ++ "...")
    let weatherData ← ApiService.getWeatherData B logger net city
    let message := "🌡️ *Weather in " ++ B.display weatherData.location ++ ", " ++
      B.display weatherData.country ++ "*\n\n" ++
      "🌡️ Temperature: " ++ B.display weatherData.temp ++ "°C\n" ++
      "🤔 Feels like: " ++ B.display weatherData.feelsLike ++ "°C\n" ++
      "☁️ Condition: " ++ B.display weatherData.description ++ "\n" ++
      "💧 Humidity: " ++ B.display weatherData.humidity ++ "%\n" ++
      "💨 Wind: " ++ B.display weatherData.windSpeed ++ " km/h"
    ctx.replyWithMarkdown message
    logger.info ("Weather sent to user " ++ toString ctx.sender.id ++ " for " ++ city) [] :
      Async Unit) = body
  have hbv : ThrowsValues body := by
    rw [← hbody]
    repeat' first
      | intro _
      | apply throwsValues_bind
      | exact throwsValues_reply ctx hv _
      | exact throwsValues_replyWithMarkdown ctx hv _
      | exact throwsValues_getWeatherData _ _ _ _
      | apply throwsValues_info
  rcases h : body.run tr with ⟨e | u, tr1⟩
  · obtain ⟨text, htext⟩ := weatherCustomMessage_of_values e (hbv.thrown _ _ _ h)
    simp only [run_bind, run_ofExcept, htext, liftResult_ok]
    exact handleError_ok logger ctx hv e _ tr1
  · cases u; rfl

/-- C9, as stated, fails for `weather`: when the host of the weather provider
cannot be resolved and every send succeeds, the error reply is the message of
the error raised by `getWeatherData`, and the fallback message of the command
is not sent. -/
theorem weather_failure_reply_is_error_message :
    sends ((CommandsHandler.weather asciiBuiltins (Logger.create "info") (rejecting hostNotFound)
        (sampleCtx "/weather Paris")).run []).2 =
      ["🌤️ Fetching weather for Paris...",
        "Network error: Unable to connect to weather service"] ∧
    CommandsHandler.weatherFallback ∉
      sends ((CommandsHandler.weather asciiBuiltins (Logger.create "info")
        (rejecting hostNotFound) (sampleCtx "/weather Paris")).run []).2 := by
  refine ⟨rfl, ?_⟩
  decide

/-- C9, amended: as long as no send to the chat is rejected with `undefined` or
`null`, the handlers of `quote`, `crypto` and `weather` do not raise to their
caller. When every send succeeds and the service call fails, `quote` and `crypto`
end by sending their fixed fallback message, and `weather` ends by sending the
message of the error raised by `getWeatherData`, which is either `Network error:
Unable to connect to weather service` or `Unable to fetch weather data for
<city>. Please check the city name and try again.`. -/
theorem command_failure_replies (B : Builtins) (logger : Logger) (net : Net) (ctx : Ctx)
    (tr : List Event) :
    (ctx.rejectsWithValues →
      ((CommandsHandler.quote B logger net ctx).run tr).1 = .ok () ∧
      ((CommandsHandler.crypto B logger net ctx).run tr).1 = .ok () ∧
      ((CommandsHandler.weather B logger net ctx).run tr).1 = .ok ()) ∧
    ((∀ t, ctx.transport t = none) →
      (∀ e tr1,
        (ApiService.getRandomQuote logger net).run
          (tr ++ [Event.reply "📖 Fetching a quote for you..."]) = (.error e, tr1) →
        (CommandsHandler.quote B logger net ctx).run tr =
          (.ok (), tr1 ++ [Event.console "error"
            ("Error occurred: " ++ ErrorHandler.errorMessage e) [],
            Event.reply CommandsHandler.quoteFallback])) ∧
      (∀ e tr1,
        (ApiService.getCryptoPrice B logger net (CommandsHandler.cryptoSymbol B ctx.text)).run
          (tr ++ [Event.reply ("💰 Fetching " ++ CommandsHandler.cryptoSymbol B ctx.text ++
            " price...")]) = (.error e, tr1) →
        (CommandsHandler.crypto B logger net ctx).run tr =
          (.ok (), tr1 ++ [Event.console "error"
            ("Error occurred: " ++ ErrorHandler.errorMessage e) [],
            Event.reply CommandsHandler.cryptoFallback])) ∧
      (∀ e tr1,
        (ApiService.getWeatherData B logger net (CommandsHandler.weatherCity ctx.text)).run
          (tr ++ [Event.reply ("🌤️ Fetching weather for " ++
            CommandsHandler.weatherCity ctx.text ++ "...")]) = (.error e, tr1) →
        ∃ err : JsError, e = Thrown.error err ∧
          (err = JsError.new "Network error: Unable to connect to weather service" ∨
            err = ApiService.weatherFailure (CommandsHandler.weatherCity ctx.text)) ∧
          (CommandsHandler.weather B logger net ctx).run tr =
            (.ok (), tr1 ++ [Event.console "error"
              ("Error occurred: " ++ ErrorHandler.errorMessage e) [],
              Event.reply err.message]))) := by
  refine ⟨fun hv => ⟨tryCatch_handleError_ok logger ctx hv _ _ tr,
    tryCatch_handleError_ok logger ctx hv _ _ tr, weather_ok B logger net ctx hv tr⟩,
    fun hsend => ⟨?_, ?_, ?_⟩⟩
  · intro e tr1 h
    simp only [CommandsHandler.quote, run_tryCatch, run_bind, run_reply, hsend, h,
      run_handleError]
    rw [userMessage_some _ (by decide)]
  · intro e tr1 h
    simp only [CommandsHandler.crypto, run_tryCatch, run_bind, run_reply, hsend, h,
      run_handleError]
    rw [userMessage_some _ (by decide)]
  · intro e tr1 h
    have he := getWeatherData_error B logger net _ _ tr1 e h
    have hrun : ∀ err : JsError, e = Thrown.error err → err.message ≠ "" →
        (CommandsHandler.weather B logger net ctx).run tr =
          (.ok (), tr1 ++ [Event.console "error"
            ("Error occurred: " ++ ErrorHandler.errorMessage e) [],
            Event.reply err.message]) := by
      intro err herr hne
      subst herr
      have hm : strOr err.message CommandsHandler.weatherFallback = err.message := by
        simp [strOr, strTruthy, hne]
      simp only [CommandsHandler.weather, run_tryCatch, run_bind, run_reply, hsend, h,
        run_ofExcept, CommandsHandler.weatherCustomMessage, liftResult_ok, run_handleError, hm]
      rw [userMessage_some _ hne]
    rcases he with he | he
    · exact ⟨_, he, Or.inl rfl, hrun _ he (by decide)⟩
    · exact ⟨_, he, Or.inr rfl, hrun _ he (weatherFailure_message_ne _)⟩

/-- C9, amended, at `/quote` while the quote provider answers with status 500. -/
theorem command_failure_replies_witness :
    (CommandsHandler.quote asciiBuiltins (Logger.create "info") (rejecting serverError)
        (sampleCtx "/quote")).run [] =
      (.ok (), [Event.reply "📖 Fetching a quote for you...",
        Event.httpGet "https://api.quotable.io/random",
        Event.console "error" "Failed to fetch quote:" ["Request failed with status code 500"]] ++
        [Event.console "error" ("Error occurred: " ++ ErrorHandler.errorMessage
          (Thrown.error (JsError.new "Unable to fetch quote. Please try again later."))) [],
        Event.reply CommandsHandler.quoteFallback]) :=
  ((command_failure_replies asciiBuiltins (Logger.create "info") (rejecting serverError)
    (sampleCtx "/quote") []).2 (fun _ => rfl)).1 _ _ rfl

/-! ## An empty price mapping -/

/-- The failure of `getCryptoPrice` on a body that is missing or has no key. -/
theorem getCryptoPrice_empty (B : Builtins) (logger : Logger) (net : Net) (symbol : String)
    (tr : List Event) (response data : JsValue)
    (hnet : net (tr ++ [Event.httpGet (ApiService.cryptoUrl B symbol)]) = .ok response)
    (hdata : response.get "data" = .ok data)
    (hempty : data.truthy = false ∨ data.keysLength = 0) :
    (ApiService.getCryptoPrice B logger net symbol).run tr =
      (.error (ApiService.cryptoFailure symbol),
        tr ++ [Event.httpGet (ApiService.cryptoUrl B symbol),
          Event.console "error" ("Failed to fetch crypto price for " ++ symbol ++ ":")
            ["Cryptocurrency not found"]]) := by
  simp only [ApiService.getCryptoPrice, run_tryCatch, run_bind, run_axiosGet, hnet, liftResult_ok, run_prop,
    hdata]
  rcases hempty with h | h
  · simp [h, isNetworkError, JsError.new]
  · cases hd : data.truthy
    · simp [isNetworkError, JsError.new]
    · simp [h, isNetworkError, JsError.new]

/-- The result of `getCryptoPrice` on a truthy body with at least one key. -/
theorem getCryptoPrice_nonempty (B : Builtins) (logger : Logger) (net : Net) (symbol : String)
    (tr : List Event) (response data : JsValue)
    (hnet : net (tr ++ [Event.httpGet (ApiService.cryptoUrl B symbol)]) = .ok response)
    (hdata : response.get "data" = .ok data)
    (htruthy : data.truthy = true) (hkeys : data.keysLength ≠ 0) :
    (ApiService.getCryptoPrice B logger net symbol).run tr =
      (.ok data, tr ++ [Event.httpGet (ApiService.cryptoUrl B symbol)]) := by
  simp [ApiService.getCryptoPrice, hnet, hdata, htruthy, hkeys]

/-- C4, as stated, fails: with an empty result mapping `getCryptoPrice` raises the
error it raises for a request answered with status 500, not a `Cryptocurrency not
found` error, and the `crypto` command answers with its fetch-failure fallback
message; the reply that says no price data was found is not sent. -/
theorem crypto_empty_mapping_gets_fallback :
    ((ApiService.getCryptoPrice asciiBuiltins (Logger.create "info") (answering (.object []))
        "not-a-real-coin").run []).1 = .error (ApiService.cryptoFailure "not-a-real-coin") ∧
    ApiService.cryptoFailure "not-a-real-coin" ≠ JsError.new "Cryptocurrency not found" ∧
    ((ApiService.getCryptoPrice asciiBuiltins (Logger.create "info") (rejecting serverError)
        "not-a-real-coin").run []).1 = .error (ApiService.cryptoFailure "not-a-real-coin") ∧
    sends ((CommandsHandler.crypto asciiBuiltins (Logger.create "info") (answering (.object []))
        (sampleCtx "/crypto not-a-real-coin")).run []).2 =
      ["💰 Fetching not-a-real-coin price...", CommandsHandler.cryptoFallback] ∧
    CommandsHandler.cryptoNotFound "not-a-real-coin" ∉
      sends ((CommandsHandler.crypto asciiBuiltins (Logger.create "info")
        (answering (.object [])) (sampleCtx "/crypto not-a-real-coin")).run []).2 := by
  refine ⟨rfl, by decide, rfl, rfl, ?_⟩
  decide

/-- C4, amended: when the price provider answers with an empty result mapping (or
no body), `getCryptoPrice` fails with the error `Unable to fetch price for
<symbol>. Please check the symbol and try again.`, the text `Cryptocurrency not
found` appearing only in the log line; and when every send succeeds the `crypto`
command then answers with its fixed fallback message `Sorry, I couldn't fetch the
cryptocurrency price. Please check the symbol and try again.`. The reply `Sorry,
I couldn't find price data for <symbol>.` is what the command sends when the
mapping has a key but no truthy entry for the symbol. -/
theorem crypto_empty_mapping (B : Builtins) (logger : Logger) (net : Net) (ctx : Ctx)
    (tr : List Event) (response data : JsValue)
    (hsend : ∀ t, ctx.transport t = none)
    (hnet : net (tr ++ [Event.reply ("💰 Fetching " ++ CommandsHandler.cryptoSymbol B ctx.text ++
        " price..."),
      Event.httpGet (ApiService.cryptoUrl B (CommandsHandler.cryptoSymbol B ctx.text))])
        = .ok response)
    (hdata : response.get "data" = .ok data) :
    ((data.truthy = false ∨ data.keysLength = 0) →
      (ApiService.getCryptoPrice B logger net (CommandsHandler.cryptoSymbol B ctx.text)).run
          (tr ++ [Event.reply ("💰 Fetching " ++ CommandsHandler.cryptoSymbol B ctx.text ++
            " price...")]) =
        (.error (ApiService.cryptoFailure (CommandsHandler.cryptoSymbol B ctx.text)),
          tr ++ [Event.reply ("💰 Fetching " ++ CommandsHandler.cryptoSymbol B ctx.text ++
            " price..."),
            Event.httpGet (ApiService.cryptoUrl B (CommandsHandler.cryptoSymbol B ctx.text)),
            Event.console "error" ("Failed to fetch crypto price for " ++
              CommandsHandler.cryptoSymbol B ctx.text ++ ":") ["Cryptocurrency not found"]]) ∧
      (CommandsHandler.crypto B logger net ctx).run tr =
        (.ok (), tr ++ [Event.reply ("💰 Fetching " ++ CommandsHandler.cryptoSymbol B ctx.text ++
            " price..."),
          Event.httpGet (ApiService.cryptoUrl B (CommandsHandler.cryptoSymbol B ctx.text)),
          Event.console "error" ("Failed to fetch crypto price for " ++
            CommandsHandler.cryptoSymbol B ctx.text ++ ":") ["Cryptocurrency not found"],
          Event.console "error" ("Error occurred: " ++ ErrorHandler.errorMessage
            (ApiService.cryptoFailure (CommandsHandler.cryptoSymbol B ctx.text))) [],
          Event.reply CommandsHandler.cryptoFallback])) ∧
    (data.truthy = true → data.keysLength ≠ 0 →
      (∃ entry, data.get (CommandsHandler.cryptoSymbol B ctx.text) = .ok entry ∧
        (entry.truthy = false ∨ ∃ usd, entry.get "usd" = .ok usd ∧ usd.truthy = false)) →
      sends ((CommandsHandler.crypto B logger net ctx).run tr).2 =
        sends tr ++ ["💰 Fetching " ++ CommandsHandler.cryptoSymbol B ctx.text ++ " price...",
          CommandsHandler.cryptoNotFound (CommandsHandler.cryptoSymbol B ctx.text)]) ∧
    ApiService.cryptoFailure (CommandsHandler.cryptoSymbol B ctx.text) =
      JsError.new ("Unable to fetch price for " ++ CommandsHandler.cryptoSymbol B ctx.text ++
        ". Please check the symbol and try again.") := by
  refine ⟨fun hempty => ?_, fun htruthy hkeys hentry => ?_, rfl⟩
  · have hrun := getCryptoPrice_empty B logger net (CommandsHandler.cryptoSymbol B ctx.text)
      (tr ++ [Event.reply ("💰 Fetching " ++ CommandsHandler.cryptoSymbol B ctx.text ++
        " price...")]) response data (by simpa using hnet) hdata hempty
    simp only [List.append_assoc, List.singleton_append] at hrun
    refine ⟨by simpa using hrun, ?_⟩
    simp only [CommandsHandler.crypto, run_tryCatch, run_bind, run_reply, hsend, hrun,
      run_handleError]
    rw [userMessage_some _ (by decide)]
    simp
  · have hrun := getCryptoPrice_nonempty B logger net (CommandsHandler.cryptoSymbol B ctx.text)
      (tr ++ [Event.reply ("💰 Fetching " ++ CommandsHandler.cryptoSymbol B ctx.text ++
        " price...")]) response data (by simpa using hnet) hdata htruthy hkeys
    obtain ⟨entry, hentry, hfalsy⟩ := hentry
    simp only [CommandsHandler.crypto, run_tryCatch, run_bind, run_reply, hsend, hrun, run_prop,
      hentry]
    rcases hfalsy with hf | ⟨usd, husd, hf⟩
    · simp [hf, run_reply, hsend, run_logger_info, sends_append, sends, sends_info_line]
    · cases he : entry.truthy
      · simp [he, run_reply, hsend, run_logger_info, sends_append, sends, sends_info_line]
      · simp [he, husd, hf, run_reply, hsend, run_logger_info, sends_append, sends,
          sends_info_line]

/-! ## Computations extend the trace -/

theorem extends_pure {α : Type} (a : α) : Extends (pure a : Async α) :=
  ⟨fun tr => ⟨[], by simp⟩⟩

theorem extends_throw {α : Type} (e : Thrown) : Extends (throw e : Async α) :=
  ⟨fun tr => ⟨[], by simp⟩⟩

theorem extends_ofExcept {α : Type} (x : Except JsError α) : Extends (Async.ofExcept x) :=
  ⟨fun tr => ⟨[], by simp⟩⟩

theorem extends_prop (v : JsValue) (key : String) : Extends (prop v key) :=
  extends_ofExcept _

theorem extends_first (v : JsValue) : Extends (first v) :=
  extends_ofExcept _

theorem extends_axiosGet (net : Net) (url : String) : Extends (axiosGet net url) :=
  ⟨fun tr => ⟨[Event.httpGet url], by simp⟩⟩

theorem extends_reply (ctx : Ctx) (text : String) : Extends (ctx.reply text) := by
  constructor
  intro tr
  rw [run_reply]
  split <;> exact ⟨_, rfl⟩

theorem extends_replyWithMarkdown (ctx : Ctx) (text : String) :
    Extends (ctx.replyWithMarkdown text) := by
  constructor
  intro tr
  show ∃ new, (ctx.replyWithMarkdown text tr).2 = tr ++ new
  unfold Ctx.replyWithMarkdown
  split <;> exact ⟨_, rfl⟩

theorem extends_log (logger : Logger) (level message : String) (args : List String) :
    Extends (logger.log level message args) := by
  constructor
  intro tr
  show ∃ new, (logger.log level message args tr).2 = tr ++ new
  unfold Logger.log
  split
  · exact ⟨_, rfl⟩
  · exact ⟨[], by simp⟩

theorem extends_error (logger : Logger) (message : String) (args : List String) :
    Extends (logger.error message args) := extends_log logger _ _ _

theorem extends_info (logger : Logger) (message : String) (args : List String) :
    Extends (logger.info message args) := extends_log logger _ _ _

theorem extends_bind {α β : Type} (m : Async α) (f : α → Async β) (hm : Extends m)
    (hf : ∀ a, Extends (f a)) : Extends (m >>= f) := by
  constructor
  intro tr
  rw [run_bind]
  obtain ⟨new, hnew⟩ := hm.grows tr
  rcases h : m.run tr with ⟨e | a, tr1⟩
  · rw [h] at hnew
    exact ⟨new, hnew⟩
  · rw [h] at hnew
    obtain ⟨new2, hnew2⟩ := (hf a).grows tr1
    simp only at hnew
    subst hnew
    exact ⟨new ++ new2, by simp only [hnew2, List.append_assoc]⟩

theorem extends_tryCatch {α : Type} (body : Async α) (handler : Thrown → Async α)
    (hb : Extends body) (hh : ∀ e, Extends (handler e)) : Extends (tryCatch body handler) := by
  constructor
  intro tr
  rw [run_tryCatch]
  obtain ⟨new, hnew⟩ := hb.grows tr
  rcases h : body.run tr with ⟨e | a, tr1⟩
  · rw [h] at hnew
    obtain ⟨new2, hnew2⟩ := (hh e).grows tr1
    simp only at hnew
    subst hnew
    exact ⟨new ++ new2, by simp only [hnew2, List.append_assoc]⟩
  · rw [h] at hnew
    exact ⟨new, hnew⟩

theorem extends_ite {α : Type} (c : Prop) [Decidable c] (a b : Async α) (ha : Extends a)
    (hb : Extends b) : Extends (if c then a else b) := by
  split
  · exact ha
  · exact hb

theorem extends_handleError (logger : Logger) (ctx : Ctx) (error : Thrown)
    (customMessage : Option String) :
    Extends (ErrorHandler.handleError logger ctx error customMessage) := by
  constructor
  intro tr
  obtain ⟨new, hnew, _⟩ := handleError_sends logger ctx error customMessage tr
  exact ⟨new, hnew⟩

theorem bind_bind {α β γ : Type} (m : Async α) (f : α → Async β) (g : β → Async γ) :
    (m >>= fun a => f a >>= g) = (m >>= f) >>= g := by
  apply funext
  intro tr
  change (m >>= fun a => f a >>= g).run tr = ((m >>= f) >>= g).run tr
  simp only [run_bind]
  rcases m.run tr with ⟨e | a, tr1⟩ <;> rfl

/-- A request is the first thing a service method adds to the trace. -/
theorem request_first {α : Type} (net : Net) (url : String) (f : JsValue → Async α)
    (handler : Thrown → Async α) (hf : ∀ a, Extends (f a)) (hh : ∀ e, Extends (handler e))
    (tr : List Event) :
    ∃ rest, ((tryCatch (axiosGet net url >>= f) handler).run tr).2 =
      tr ++ Event.httpGet url :: rest := by
  simp only [run_tryCatch, run_bind, run_axiosGet]
  rcases net (tr ++ [Event.httpGet url]) with e | a
  · simp only [liftResult_error]
    obtain ⟨new, hnew⟩ := (hh e).grows (tr ++ [Event.httpGet url])
    exact ⟨new, by simp only [hnew, List.append_assoc, List.singleton_append]⟩
  · simp only [liftResult_ok]
    obtain ⟨new, hnew⟩ := (extends_tryCatch (f a) handler (hf a) hh).grows
      (tr ++ [Event.httpGet url])
    rw [run_tryCatch] at hnew
    exact ⟨new, by simp only [hnew, List.append_assoc, List.singleton_append]⟩

/-- What a handler adds to the trace starts with what its first steps add. -/
theorem tryCatch_bind_starts {α β : Type} (m : Async α) (f : α → Async β)
    (handler : Thrown → Async β) (tr pre : List Event)
    (hm : ∃ rest, (m.run tr).2 = tr ++ pre ++ rest) (hf : ∀ a, Extends (f a))
    (hh : ∀ e, Extends (handler e)) :
    ∃ rest, ((tryCatch (m >>= f) handler).run tr).2 = tr ++ pre ++ rest := by
  obtain ⟨rest1, h1⟩ := hm
  simp only [run_tryCatch, run_bind]
  rcases h : m.run tr with ⟨e | a, tr1⟩
  · rw [h] at h1
    simp only at h1
    subst h1
    obtain ⟨new, hnew⟩ := (hh e).grows (tr ++ pre ++ rest1)
    exact ⟨rest1 ++ new, by rw [hnew, List.append_assoc]⟩
  · rw [h] at h1
    simp only at h1
    subst h1
    obtain ⟨new, hnew⟩ := (extends_tryCatch (f a) handler (hf a) hh).grows (tr ++ pre ++ rest1)
    rw [run_tryCatch] at hnew
    exact ⟨rest1 ++ new, by rw [hnew, List.append_assoc]⟩

theorem getCryptoPrice_requests (B : Builtins) (logger : Logger) (net : Net) (symbol : String)
    (tr : List Event) :
    ∃ rest, ((ApiService.getCryptoPrice B logger net symbol).run tr).2 =
      tr ++ Event.httpGet (ApiService.cryptoUrl B symbol) :: rest := by
  unfold ApiService.getCryptoPrice
  apply request_first
  all_goals
    repeat' first
      | intro _
      | apply extends_bind
      | apply extends_ite
      | apply extends_pure
      | apply extends_throw
      | apply extends_prop
      | apply extends_ofExcept
      | apply extends_error

theorem getWeatherData_requests (B : Builtins) (logger : Logger) (net : Net) (city : String)
    (tr : List Event) :
    ∃ rest, ((ApiService.getWeatherData B logger net city).run tr).2 =
      tr ++ Event.httpGet (ApiService.weatherUrl B city) :: rest := by
  unfold ApiService.getWeatherData
  apply request_first
  all_goals
    repeat' first
      | intro _
      | apply extends_bind
      | apply extends_ite
      | apply extends_pure
      | apply extends_throw
      | apply extends_prop
      | apply extends_first
      | apply extends_ofExcept
      | apply extends_error

/-- The request of `crypto` is for the symbol computed by its first line. -/
theorem crypto_requests (B : Builtins) (logger : Logger) (net : Net) (ctx : Ctx)
    (tr : List Event)
    (hack : ctx.transport (tr ++ [Event.reply ("💰 Fetching " ++
      CommandsHandler.cryptoSymbol B ctx.text ++ " price...")]) = none) :
    ∃ rest, ((CommandsHandler.crypto B logger net ctx).run tr).2 =
      tr ++ [Event.reply ("💰 Fetching " ++ CommandsHandler.cryptoSymbol B ctx.text ++
          " price..."),
        Event.httpGet (ApiService.cryptoUrl B (CommandsHandler.cryptoSymbol B ctx.text))] ++
        rest := by
  unfold CommandsHandler.crypto
  rw [bind_bind]
  apply tryCatch_bind_starts
  · simp only [run_bind, run_reply, hack]
    obtain ⟨rest, hrest⟩ := getCryptoPrice_requests B logger net
      (CommandsHandler.cryptoSymbol B ctx.text) (tr ++ [Event.reply ("💰 Fetching " ++
        CommandsHandler.cryptoSymbol B ctx.text ++ " price...")])
    exact ⟨rest, by
      rw [hrest]
      simp only [List.append_assoc, List.singleton_append, List.cons_append, List.nil_append]⟩
  · intro priceData
    repeat' first
      | intro _
      | apply extends_bind
      | apply extends_ite
      | apply extends_pure
      | apply extends_prop
      | apply extends_reply
      | apply extends_replyWithMarkdown
      | apply extends_info
  · intro e
    exact extends_handleError _ _ _ _

/-- The request of `weather` is for the city computed by its first line. -/
theorem weather_requests (B : Builtins) (logger : Logger) (net : Net) (ctx : Ctx)
    (tr : List Event)
    (hack : ctx.transport (tr ++ [Event.reply ("🌤️ Fetching weather for " ++
      CommandsHandler.weatherCity ctx.text ++ "...")]) = none) :
    ∃ rest, ((CommandsHandler.weather B logger net ctx).run tr).2 =
      tr ++ [Event.reply ("🌤️ Fetching weather for " ++ CommandsHandler.weatherCity ctx.text ++
          "..."),
        Event.httpGet (ApiService.weatherUrl B (CommandsHandler.weatherCity ctx.text))] ++
        rest := by
  unfold CommandsHandler.weather
  rw [bind_bind]
  apply tryCatch_bind_starts
  · simp only [run_bind, run_reply, hack]
    obtain ⟨rest, hrest⟩ := getWeatherData_requests B logger net
      (CommandsHandler.weatherCity ctx.text) (tr ++ [Event.reply ("🌤️ Fetching weather for " ++
        CommandsHandler.weatherCity ctx.text ++ "...")])
    exact ⟨rest, by
      rw [hrest]
      simp only [List.append_assoc, List.singleton_append, List.cons_append, List.nil_append]⟩
  · intro weatherData
    repeat' first
      | intro _
      | apply extends_bind
      | apply extends_reply
      | apply extends_replyWithMarkdown
      | apply extends_info
  · intro e
    exact extends_bind _ _ (extends_ofExcept _) (fun _ => extends_handleError _ _ _ _)

/-! ## The argument of `crypto` and `weather` -/

theorem splitChars_ne_nil (sep : Char) (l : List Char) : splitChars sep l ≠ [] := by
  cases l with
  | nil => simp [splitChars]
  | cons c cs =>
    simp only [splitChars]
    split
    · simp
    · split <;> simp

theorem splitChars_no_sep (sep : Char) (l : List Char) (h : sep ∉ l) :
    splitChars sep l = [l] := by
  induction l with
  | nil => rfl
  | cons c cs ih =>
    have hc : c ≠ sep := fun hc => h (by simp [hc])
    have hcs : sep ∉ cs := fun hcs => h (by simp [hcs])
    simp [splitChars, hc, ih hcs]

theorem splitChars_append (sep : Char) (l rest : List Char) (h : sep ∉ l) :
    splitChars sep (l ++ sep :: rest) = l :: splitChars sep rest := by
  induction l with
  | nil => simp [splitChars]
  | cons c cs ih =>
    have hc : c ≠ sep := fun hc => h (by simp [hc])
    have hcs : sep ∉ cs := fun hcs => h (by simp [hcs])
    simp [splitChars, hc, ih hcs]

theorem joinChars_splitChars (sep : Char) (l : List Char) :
    joinChars sep (splitChars sep l) = l := by
  induction l with
  | nil => rfl
  | cons c cs ih =>
    simp only [splitChars]
    split
    · next hc =>
      rcases hs : splitChars sep cs with _ | ⟨w, ws⟩
      · exact absurd hs (splitChars_ne_nil sep cs)
      · rw [hs] at ih
        simp [joinChars, ih, hc]
    · rcases hs : splitChars sep cs with _ | ⟨w, ws⟩
      · exact absurd hs (splitChars_ne_nil sep cs)
      · rw [hs] at ih
        cases ws with
        | nil => simp_all [joinChars]
        | cons v vs =>
          simp only [joinChars] at ih ⊢
          simp [ih]

theorem splitChars_head (sep : Char) (l : List Char) :
    (splitChars sep l).head? = some (l.takeWhile (fun c => c ≠ sep)) := by
  induction l with
  | nil => rfl
  | cons c cs ih =>
    simp only [splitChars]
    split
    · next hc => simp [List.takeWhile, hc]
    · next hc =>
      rcases hs : splitChars sep cs with _ | ⟨w, ws⟩
      · exact absurd hs (splitChars_ne_nil sep cs)
      · rw [hs] at ih
        simp at ih
        simp [List.takeWhile, hc, ih]

theorem splitSpace_command (command : String) (h : ' ' ∉ command.toList) :
    splitSpace command = [command] := by
  unfold splitSpace
  rw [splitChars_no_sep ' ' _ h]
  rfl

theorem toList_command_rest (command rest : String) :
    (command ++ " " ++ rest).toList = command.toList ++ ' ' :: rest.toList := by
  show (command ++ " " ++ rest).data = command.data ++ ' ' :: rest.data
  simp

theorem splitSpace_command_rest (command rest : String) (h : ' ' ∉ command.toList) :
    splitSpace (command ++ " " ++ rest) =
      command :: (splitChars ' ' rest.toList).map String.mk := by
  unfold splitSpace
  rw [toList_command_rest, splitChars_append ' ' _ _ h]
  rfl

theorem weatherCity_command (command : String) (h : ' ' ∉ command.toList) :
    CommandsHandler.weatherCity command = "London" := by
  simp only [CommandsHandler.weatherCity, splitSpace_command command h]
  rfl

theorem weatherCity_command_rest (command rest : String) (h : ' ' ∉ command.toList) :
    CommandsHandler.weatherCity (command ++ " " ++ rest) = strOr rest "London" := by
  simp only [CommandsHandler.weatherCity, splitSpace_command_rest command rest h,
    List.drop_succ_cons, List.drop_zero]
  have : joinSpace ((splitChars ' ' rest.toList).map String.mk) = rest := by
    simp only [joinSpace, List.map_map]
    have hid : (String.toList ∘ String.mk) = id := by
      funext l; rfl
    rw [hid, List.map_id, joinChars_splitChars]
    rfl
  rw [this]

theorem cryptoSymbol_command (B : Builtins) (command : String) (h : ' ' ∉ command.toList) :
    CommandsHandler.cryptoSymbol B command = "bitcoin" := by
  simp only [CommandsHandler.cryptoSymbol, splitSpace_command command h]
  rfl

theorem cryptoSymbol_command_rest (B : Builtins) (command rest : String)
    (h : ' ' ∉ command.toList) :
    CommandsHandler.cryptoSymbol B (command ++ " " ++ rest) =
      strOr (B.toLowerCase (String.mk (rest.toList.takeWhile (fun c => c ≠ ' ')))) "bitcoin" := by
  have hh := splitChars_head ' ' rest.toList
  rcases hs : splitChars ' ' rest.toList with _ | ⟨w, ws⟩
  · exact absurd hs (splitChars_ne_nil _ _)
  · rw [hs] at hh
    simp only [List.head?_cons, Option.some.injEq] at hh
    simp only [CommandsHandler.cryptoSymbol, splitSpace_command_rest command rest h, hs]
    rw [← hh]
    rfl

/-- C6, as stated, fails: for `/weather New York` the city handed to the service
is `New York`, not the first token `New`, and for `/crypto` followed by two
spaces and `ETH` the symbol is the default `bitcoin` although a token is there. -/
theorem command_argument_not_first_token :
    CommandsHandler.weatherCity "/weather New York" = "New York" ∧
    specArgument "/weather New York" "London" = "New" ∧
    ((CommandsHandler.weather asciiBuiltins (Logger.create "info") (rejecting hostNotFound)
        (sampleCtx "/weather New York")).run []).2.take 2 =
      [Event.reply "🌤️ Fetching weather for New York...",
        Event.httpGet "https://wttr.in/New%20York?format=j1"] ∧
    CommandsHandler.cryptoSymbol asciiBuiltins "/crypto  ETH" = "bitcoin" ∧
    asciiLower (specArgument "/crypto  ETH" "bitcoin") = "eth" :=
  ⟨by decide, by decide, rfl, by decide, by decide⟩

/-- C6, amended: the text is cut at single space characters. For `/crypto` the
argument is the lower-cased piece between the first and the second space of the
text, and it is `bitcoin` when the text has no space or when that piece, once
lower-cased, is empty. For `/weather` the argument is everything after the first
space of the text, and it is `London` when the text has no space or nothing
follows the first space. In both commands, once the acknowledgement is sent, the
request made to the provider is the one for that argument. -/
theorem command_argument (B : Builtins) (logger : Logger) (net : Net) (ctx : Ctx)
    (tr : List Event) (command rest : String) (hcommand : ' ' ∉ command.toList) :
    CommandsHandler.cryptoSymbol B command = "bitcoin" ∧
    CommandsHandler.cryptoSymbol B (command ++ " " ++ rest) =
      strOr (B.toLowerCase (String.mk (rest.toList.takeWhile (fun c => c ≠ ' ')))) "bitcoin" ∧
    CommandsHandler.weatherCity command = "London" ∧
    CommandsHandler.weatherCity (command ++ " " ++ rest) = strOr rest "London" ∧
    (ctx.transport (tr ++ [Event.reply ("💰 Fetching " ++
        CommandsHandler.cryptoSymbol B ctx.text ++ " price...")]) = none →
      ∃ more, ((CommandsHandler.crypto B logger net ctx).run tr).2 =
        tr ++ [Event.reply ("💰 Fetching " ++ CommandsHandler.cryptoSymbol B ctx.text ++
            " price..."),
          Event.httpGet (ApiService.cryptoUrl B (CommandsHandler.cryptoSymbol B ctx.text))] ++
          more) ∧
    (ctx.transport (tr ++ [Event.reply ("🌤️ Fetching weather for " ++
        CommandsHandler.weatherCity ctx.text ++ "...")]) = none →
      ∃ more, ((CommandsHandler.weather B logger net ctx).run tr).2 =
        tr ++ [Event.reply ("🌤️ Fetching weather for " ++
            CommandsHandler.weatherCity ctx.text ++ "..."),
          Event.httpGet (ApiService.weatherUrl B (CommandsHandler.weatherCity ctx.text))] ++
          more) :=
  ⟨cryptoSymbol_command B command hcommand,
    cryptoSymbol_command_rest B command rest hcommand,
    weatherCity_command command hcommand,
    weatherCity_command_rest command rest hcommand,
    crypto_requests B logger net ctx tr,
    weather_requests B logger net ctx tr⟩

/-- C6, amended, at the texts `/crypto ETH now` and `/weather New York`. -/
theorem command_argument_witness :
    CommandsHandler.cryptoSymbol asciiBuiltins "/crypto ETH now" = "eth" ∧
    CommandsHandler.weatherCity "/weather New York" = "New York" :=
  ⟨(command_argument asciiBuiltins (Logger.create "info") (rejecting hostNotFound)
      (sampleCtx "/crypto ETH now") [] "/crypto" "ETH now" (by decide)).2.1,
    (command_argument asciiBuiltins (Logger.create "info") (rejecting hostNotFound)
      (sampleCtx "/weather New York") [] "/weather" "New York" (by decide)).2.2.2.1⟩

/-- C4, amended, at `/crypto not-a-real-coin` with an empty mapping as the answer. -/
theorem crypto_empty_mapping_witness :
    (CommandsHandler.crypto asciiBuiltins (Logger.create "info") (answering (.object []))
        (sampleCtx "/crypto not-a-real-coin")).run [] =
      (.ok (), [] ++ [Event.reply "💰 Fetching not-a-real-coin price...",
        Event.httpGet
          "https://api.coingecko.com/api/v3/simple/price?ids=not-a-real-coin&vs_currencies=usd",
        Event.console "error" "Failed to fetch crypto price for not-a-real-coin:"
          ["Cryptocurrency not found"],
        Event.console "error"
          "Error occurred: Unable to fetch price for not-a-real-coin. Please check the symbol and try again."
          [],
        Event.reply CommandsHandler.cryptoFallback]) :=
  ((crypto_empty_mapping asciiBuiltins (Logger.create "info") (answering (.object []))
    (sampleCtx "/crypto not-a-real-coin") [] _ (.object []) (fun _ => rfl) rfl rfl).1
    (Or.inr rfl)).2

end TelegramBot
